import Mathlib

/-
  Shallow embedding of src/garbageCollector.py (smart_garbage_collection).

  Python floats (trash amounts, generation rates, the 0.8 pickup threshold)
  are embedded as exact rationals.  Object references (a truck's `target`
  pointing at a `BuildingAgent`) are embedded as indices into the model's
  building list.  The mesa scheduler `RandomActivation` steps all agents
  once per tick in a freshly shuffled order; the shuffle and every other
  random draw (`random.choice`, `random.uniform`, `random.randint`) are
  supplied by explicit oracle parameters, so every run of the Python
  program corresponds to some choice of oracles here.
-/

namespace GC

/-- Dispatch states of `TruckAgent`, mirroring the string field `self.state`
(src/garbageCollector.py lines 58, 67-72): "patrolling", "collecting",
"returning". -/
inductive TruckState
  | patrolling
  | collecting
  | returning
deriving DecidableEq, Repr

/-- State of a `BuildingAgent` (src/garbageCollector.py lines 16-48). -/
structure Building where
  trash_level : ℚ
  capacity : ℚ
  trash_generation_rate : ℚ
  pickup_requested : Bool
  total_trash_generated : ℚ
  pickup_wait_time : ℕ
  pos : ℤ × ℤ
deriving DecidableEq, Repr

/-- First statement of `BuildingAgent.step` (src/garbageCollector.py lines
30-32): generate trash while below capacity (no clamping). -/
def Building.generate (b : Building) : Building :=
  if b.trash_level < b.capacity then
    { b with trash_level := b.trash_level + b.trash_generation_rate,
             total_trash_generated := b.total_trash_generated + b.trash_generation_rate }
  else b

/-- Second statement of `BuildingAgent.step` (src/garbageCollector.py lines
34-37): latch the pickup request once fill reaches 80% of capacity. -/
def Building.latch (b : Building) : Building :=
  if b.capacity * 0.8 ≤ b.trash_level ∧ b.pickup_requested = false then
    { b with pickup_requested := true, pickup_wait_time := 0 }
  else b

/-- Third statement of `BuildingAgent.step` (src/garbageCollector.py lines
39-40): count a waiting tick while a request is pending. -/
def Building.tickWait (b : Building) : Building :=
  if b.pickup_requested then
    { b with pickup_wait_time := b.pickup_wait_time + 1 }
  else b

/-- `BuildingAgent.step` (src/garbageCollector.py lines 29-40): the three
statements in sequence. -/
def Building.step (b : Building) : Building :=
  b.generate.latch.tickWait

/-- `BuildingAgent.collect_trash` (src/garbageCollector.py lines 42-48):
returns the collected amount together with the updated building. -/
def Building.collect_trash (b : Building) : ℚ × Building :=
  (b.trash_level,
   { b with trash_level := 0, pickup_requested := false, pickup_wait_time := 0 })

/-- State of a `TruckAgent` (src/garbageCollector.py lines 50-63).  The
`target` field holds the index of the targeted building, `none` for
Python's `None`. -/
structure Truck where
  capacity : ℚ
  current_load : ℚ
  speed : ℕ
  state : TruckState
  target : Option ℕ
  total_collected : ℚ
  trips_made : ℕ
  distance_traveled : ℕ
  pos : ℤ × ℤ
deriving DecidableEq, Repr

/-- State of the `DisposalSiteAgent` (src/garbageCollector.py lines 172-185). -/
structure DisposalSite where
  total_received : ℚ
  pos : ℤ × ℤ
deriving DecidableEq, Repr

/-- `DisposalSiteAgent.receive_trash` (src/garbageCollector.py lines 180-182). -/
def DisposalSite.receive_trash (d : DisposalSite) (amount : ℚ) : DisposalSite :=
  { d with total_received := d.total_received + amount }

/-- State of `GarbageCollectionModel` (src/garbageCollector.py lines 187-260):
grid dimensions, the registered buildings and trucks in registration order,
the disposal site (`None` until `_create_disposal_site` runs), and a counter
of consumed `random.choice` draws. -/
structure ModelState where
  width : ℕ
  height : ℕ
  buildings : List Building
  trucks : List Truck
  disposal_site : Option DisposalSite
  draws : ℕ
deriving DecidableEq, Repr

/-- Identity of a scheduled agent: buildings and trucks by index in
registration order, plus the single disposal site. -/
inductive AgentId
  | building (i : ℕ)
  | truck (j : ℕ)
  | disposal
deriving DecidableEq, Repr

/-- Mesa `Grid.out_of_bounds` (checked by `TruckAgent._try_move`,
src/garbageCollector.py line 143). -/
def outOfBounds (w h : ℕ) (p : ℤ × ℤ) : Bool :=
  decide (p.1 < 0) || decide ((w : ℤ) ≤ p.1) || decide (p.2 < 0) || decide ((h : ℤ) ≤ p.2)

/-- Mesa `Grid.torus_adj`: the model's `MultiGrid` is built with
`torus=True` (src/garbageCollector.py line 197), so `move_agent` wraps
coordinates modulo the grid dimensions. -/
def torusAdj (w h : ℕ) (p : ℤ × ℤ) : ℤ × ℤ :=
  (p.1 % (w : ℤ), p.2 % (h : ℤ))

/-- Cell occupancy test used by `_try_move` and `_move_randomly`
(src/garbageCollector.py lines 144, 160): is any `TruckAgent` in the cell? -/
def truckAt (trucks : List Truck) (p : ℤ × ℤ) : Bool :=
  trucks.any (fun t => t.pos == p)

/-- Mesa `Grid.get_neighborhood` with `moore=True, include_center=False` on
a toroidal grid (src/garbageCollector.py lines 154-156): the eight wrapped
neighbour cells, deduplicated. -/
def neighborhood (w h : ℕ) (p : ℤ × ℤ) : List (ℤ × ℤ) :=
  ((([-1, 0, 1] : List ℤ).flatMap (fun dy =>
    ([-1, 0, 1] : List ℤ).filterMap (fun dx =>
      if dx = 0 ∧ dy = 0 then none
      else some (torusAdj w h (p.1 + dx, p.2 + dy))))).eraseDups)

/-- `TruckAgent._distance_to` (src/garbageCollector.py lines 168-170):
Manhattan distance on raw coordinates. -/
def distanceTo (p q : ℤ × ℤ) : ℕ :=
  (p.1 - q.1).natAbs + (p.2 - q.2).natAbs

/-- Numpy `np.sign` on integers (used in `_move_towards`,
src/garbageCollector.py lines 133-137). -/
def signZ (z : ℤ) : ℤ :=
  if 0 < z then 1 else if z < 0 then -1 else 0

/-- Mesa `grid.move_agent` on truck `j` followed by the
`self.distance_traveled += 1` bump that both movement call sites perform
(src/garbageCollector.py lines 147-148 and 165-166). -/
def moveTruckCell (s : ModelState) (j : ℕ) (p : ℤ × ℤ) : ModelState :=
  match s.trucks[j]? with
  | none => s
  | some t =>
    let t2 := { t with pos := torusAdj s.width s.height p,
                       distance_traveled := t.distance_traveled + 1 }
    { s with trucks := s.trucks.set j t2 }

/-- `TruckAgent._try_move` (src/garbageCollector.py lines 141-150): `some`
of the moved state when the move is performed, `none` when it is rejected. -/
def tryMove (s : ModelState) (j : ℕ) (new_pos target_pos : ℤ × ℤ) : Option ModelState :=
  if outOfBounds s.width s.height new_pos then none
  else if truckAt s.trucks new_pos = false ∨ new_pos = target_pos then
    some (moveTruckCell s j new_pos)
  else none

/-- `TruckAgent._move_randomly` (src/garbageCollector.py lines 152-166):
pick (via the `rng` oracle standing for `self.random.choice`) one of the
neighbouring cells not occupied by a truck; stay in place if none is free. -/
def moveRandomly (s : ModelState) (rng : ℕ → ℕ) (j : ℕ) : ModelState :=
  match s.trucks[j]? with
  | none => s
  | some t =>
    let possible_steps := neighborhood s.width s.height t.pos
    let valid_steps := possible_steps.filter
      (fun p => !outOfBounds s.width s.height p && !truckAt s.trucks p)
    if valid_steps.isEmpty then s
    else
      let new_position := valid_steps.getD (rng s.draws % valid_steps.length) t.pos
      moveTruckCell { s with draws := s.draws + 1 } j new_position

/-- `TruckAgent._move_towards` (src/garbageCollector.py lines 126-139):
step along the axis of larger absolute delta first, fall back to the other
axis, then to a random move. -/
def moveTowards (s : ModelState) (rng : ℕ → ℕ) (j : ℕ) (target_pos : ℤ × ℤ) : ModelState :=
  match s.trucks[j]? with
  | none => s
  | some t =>
    let x := t.pos.1
    let y := t.pos.2
    let dx := target_pos.1 - x
    let dy := target_pos.2 - y
    if dy.natAbs < dx.natAbs then
      match tryMove s j (x + signZ dx, y) target_pos with
      | some s1 => s1
      | none =>
        match tryMove s j (x, y + signZ dy) target_pos with
        | some s1 => s1
        | none => moveRandomly s rng j
    else
      match tryMove s j (x, y + signZ dy) target_pos with
      | some s1 => s1
      | none =>
        match tryMove s j (x + signZ dx, y) target_pos with
        | some s1 => s1
        | none => moveRandomly s rng j

/-- Claim test performed inside `_patrol` (src/garbageCollector.py lines
78-82): does any truck's `target` reference building `i`? -/
def targeted (trucks : List Truck) (i : ℕ) : Bool :=
  trucks.any (fun u => u.target == some i)

/-- Position of building `i` (a dangling index yields a dummy cell; in the
source the target is an object reference, so this case cannot arise). -/
def buildingPosAt (s : ModelState) (i : ℕ) : ℤ × ℤ :=
  match s.buildings[i]? with
  | some b => b.pos
  | none => (0, 0)

/-- The `buildings_needing_pickup` scan of `_patrol` (src/garbageCollector.py
lines 75-84): buildings are encountered in registration (index) order when
iterating `self.model.schedule.agents`. -/
def pickupCandidates (s : ModelState) : List ℕ :=
  (List.range s.buildings.length).filter (fun i =>
    (match s.buildings[i]? with
     | some b => b.pickup_requested
     | none => false) && !targeted s.trucks i)

/-- Python `min(candidates, key=distance)` (src/garbageCollector.py lines
87-88): the first candidate attaining the minimal distance. -/
def closestOf (s : ModelState) (pos : ℤ × ℤ) : List ℕ → Option ℕ
  | [] => none
  | i :: rest =>
    some (rest.foldl (fun acc k =>
      if distanceTo pos (buildingPosAt s k) < distanceTo pos (buildingPosAt s acc)
      then k else acc) i)

/-- `TruckAgent._patrol` (src/garbageCollector.py lines 74-92). -/
def patrol (s : ModelState) (rng : ℕ → ℕ) (j : ℕ) : ModelState :=
  match s.trucks[j]? with
  | none => s
  | some t =>
    match closestOf s t.pos (pickupCandidates s) with
    | some i =>
      let t2 := { t with target := some i, state := TruckState.collecting }
      { s with trucks := s.trucks.set j t2 }
    | none => moveRandomly s rng j

/-- `TruckAgent._collect` (src/garbageCollector.py lines 94-111). -/
def collect (s : ModelState) (rng : ℕ → ℕ) (j : ℕ) : ModelState :=
  match s.trucks[j]? with
  | none => s
  | some t =>
    let giveUp : ModelState :=
      { s with trucks := s.trucks.set j { t with state := TruckState.patrolling, target := none } }
    match t.target with
    | none => giveUp
    | some i =>
      match s.buildings[i]? with
      | none => giveUp
      | some b =>
        if b.pickup_requested = false then giveUp
        else if t.pos ≠ b.pos then moveTowards s rng j b.pos
        else
          let cb := b.collect_trash
          let t2 := { t with current_load := t.current_load + cb.1,
                             total_collected := t.total_collected + cb.1,
                             target := none }
          let t3 :=
            if t2.capacity ≤ t2.current_load then
              { t2 with state := TruckState.returning }
            else
              { t2 with state := TruckState.patrolling }
          { s with buildings := s.buildings.set i cb.2, trucks := s.trucks.set j t3 }

/-- `TruckAgent._return_to_disposal` (src/garbageCollector.py lines 113-124). -/
def returnToDisposal (s : ModelState) (rng : ℕ → ℕ) (j : ℕ) : ModelState :=
  match s.trucks[j]? with
  | none => s
  | some t =>
    match s.disposal_site with
    | none => s
    | some d =>
      if t.pos ≠ d.pos then moveTowards s rng j d.pos
      else
        let t2 := { t with current_load := 0,
                           trips_made := t.trips_made + 1,
                           state := TruckState.patrolling }
        { s with disposal_site := some (d.receive_trash t.current_load),
                 trucks := s.trucks.set j t2 }

/-- One iteration of the loop body of `TruckAgent.step`
(src/garbageCollector.py lines 66-72): dispatch on the state string. -/
def truckSubstep (rng : ℕ → ℕ) (j : ℕ) (s : ModelState) : ModelState :=
  match s.trucks[j]? with
  | none => s
  | some t =>
    match t.state with
    | TruckState.patrolling => patrol s rng j
    | TruckState.collecting => collect s rng j
    | TruckState.returning => returnToDisposal s rng j

/-- `TruckAgent.step` (src/garbageCollector.py lines 65-72): `speed`
consecutive substeps. -/
def truckStep (rng : ℕ → ℕ) (j : ℕ) (s : ModelState) : ModelState :=
  match s.trucks[j]? with
  | none => s
  | some t => (truckSubstep rng j)^[t.speed] s

/-- Stepping one scheduled agent: `BuildingAgent.step`, `TruckAgent.step`,
or `DisposalSiteAgent.step` (which is `pass`, src/garbageCollector.py
lines 184-185). -/
def stepAgent (rng : ℕ → ℕ) (a : AgentId) (s : ModelState) : ModelState :=
  match a with
  | AgentId.building i =>
    match s.buildings[i]? with
    | none => s
    | some b => { s with buildings := s.buildings.set i b.step }
  | AgentId.truck j => truckStep rng j s
  | AgentId.disposal => s

/-- `GarbageCollectionModel.step` (src/garbageCollector.py lines 262-265):
`RandomActivation.step` calls `step()` on every agent in a freshly shuffled
order, supplied here as the `order` argument; the subsequent
`datacollector.collect` only reads state. -/
def stepModel (rng : ℕ → ℕ) (order : List AgentId) (s : ModelState) : ModelState :=
  order.foldl (fun s a => stepAgent rng a s) s

/-- A run of several ticks: one shuffle per call of the model's `step()`. -/
def run (rng : ℕ → ℕ) (shuffles : List (List AgentId)) (s : ModelState) : ModelState :=
  shuffles.foldl (fun s order => stepModel rng order s) s

/-- The scheduled agents in registration order (`_create_buildings`, then
`_create_trucks`, then `_create_disposal_site`, src/garbageCollector.py
lines 203-205): the list `RandomActivation` shuffles each tick. -/
def roster (s : ModelState) : List AgentId :=
  (List.range s.buildings.length).map AgentId.building ++
    (List.range s.trucks.length).map AgentId.truck ++ [AgentId.disposal]

/-- Modelled from the spec (section 4.4): the fixed phase order that claim
C6 attributes to `advance()` — every source once, then every collector, in
registration order.  This is the spec's description, for comparison with
`stepModel`; the source's scheduler is `RandomActivation`. -/
def specPhasedOrder (s : ModelState) : List AgentId :=
  (List.range s.buildings.length).map AgentId.building ++
    (List.range s.trucks.length).map AgentId.truck

/-- Modelled from the spec (section 4.4): stepping in the fixed phase order. -/
def stepPhased (rng : ℕ → ℕ) (s : ModelState) : ModelState :=
  stepModel rng (specPhasedOrder s) s

/-- Oracle for the random draws of model construction
(src/garbageCollector.py lines 232-251): `pick` stands for the successive
`random.choice` index picks inside mesa's `find_empty`/`move_to_empty`,
`rate` for `random.uniform(0.5, 2.0)`, `buildingCap` for
`random.randint(8, 15)`, `truckCap` for `random.randint(40, 60)` and
`truckSpeed` for `random.randint(1, 2)`. -/
structure RandomStream where
  pick : ℕ → ℕ
  rate : ℕ → ℚ
  buildingCap : ℕ → ℕ
  truckCap : ℕ → ℕ
  truckSpeed : ℕ → ℕ

/-- The value of a `random.uniform(0.5, 2.0)` draw: an arbitrary rational
confined to the interval `[1/2, 2]`. -/
def uniformRate (q : ℚ) : ℚ :=
  if q < 1/2 then 1/2 else if 2 < q then 2 else q

/-- The value of a `random.randint(lo, hi)` draw: an arbitrary natural
number mapped into `lo..hi`. -/
def randint (lo hi n : ℕ) : ℕ :=
  lo + n % (hi + 1 - lo)

/-- All grid cells in the lexicographic order in which mesa's `find_empty`
sorts the `empties` set of coordinate tuples. -/
def allCells (w h : ℕ) : List (ℤ × ℤ) :=
  (List.range w).flatMap (fun x => (List.range h).map (fun y => ((x : ℤ), (y : ℤ))))

/-- Mesa `Grid.find_empty` (called at src/garbageCollector.py lines 234 and
244): `random.choice(sorted(self.empties))`, or `None` when the grid has no
empty cell. -/
def findEmpty (w h : ℕ) (occupied : List (ℤ × ℤ)) (pick : ℕ) : Option (ℤ × ℤ) :=
  let empties := (allCells w h).filter (fun c => !occupied.contains c)
  if empties.isEmpty then none
  else empties[pick % empties.length]?

/-- `GarbageCollectionModel._create_buildings` (src/garbageCollector.py
lines 232-240): place `n` buildings on empty cells, silently skipping a
building when `find_empty` returns `None`.  Returns the buildings, the
occupied cells, and the number of consumed `pick` draws. -/
def createBuildings (R : RandomStream) (w h n : ℕ) :
    List Building × List (ℤ × ℤ) × ℕ :=
  (List.range n).foldl
    (fun acc i =>
      match findEmpty w h acc.2.1 (R.pick acc.2.2) with
      | some pos =>
        let b : Building :=
          { trash_level := 0,
            capacity := (randint 8 15 (R.buildingCap i) : ℚ),
            trash_generation_rate := uniformRate (R.rate i),
            pickup_requested := false,
            total_trash_generated := 0,
            pickup_wait_time := 0,
            pos := pos }
        (acc.1 ++ [b], (pos :: acc.2.1, acc.2.2 + 1))
      | none => acc)
    ([], ([], 0))

/-- `GarbageCollectionModel._create_trucks` (src/garbageCollector.py lines
242-251), continuing from the cells occupied by the buildings. -/
def createTrucks (R : RandomStream) (w h n : ℕ) (occ0 : List (ℤ × ℤ)) (d0 : ℕ) :
    List Truck × List (ℤ × ℤ) × ℕ :=
  (List.range n).foldl
    (fun acc i =>
      match findEmpty w h acc.2.1 (R.pick acc.2.2) with
      | some pos =>
        let t : Truck :=
          { capacity := (randint 40 60 (R.truckCap i) : ℚ),
            current_load := 0,
            speed := randint 1 2 (R.truckSpeed i),
            state := TruckState.patrolling,
            target := none,
            total_collected := 0,
            trips_made := 0,
            distance_traveled := 0,
            pos := pos }
        (acc.1 ++ [t], (pos :: acc.2.1, acc.2.2 + 1))
      | none => acc)
    ([], (occ0, d0))

/-- `GarbageCollectionModel._create_disposal_site` (src/garbageCollector.py
lines 253-260): place the disposal site at `(0, 0)`, first displacing any
occupant via mesa's `move_to_empty`.  On a zero-sized grid,
`is_cell_empty((0, 0))` raises an `IndexError`; when the grid has no empty
cell to displace into, `move_to_empty` raises mesa's generic
`"ERROR: No empty cells"` exception.  No `ConfigurationError` exists
anywhere in the source. -/
def createDisposalSite (R : RandomStream) (w h : ℕ) (bs : List Building)
    (ts : List Truck) (d0 : ℕ) :
    Except String (List Building × List Truck × DisposalSite) :=
  if w = 0 ∨ h = 0 then Except.error "IndexError: list index out of range"
  else
    let occupied := bs.map Building.pos ++ ts.map Truck.pos
    if !occupied.contains ((0 : ℤ), (0 : ℤ)) then
      Except.ok (bs, ts, { total_received := 0, pos := (0, 0) })
    else
      let empties := (allCells w h).filter (fun c => !occupied.contains c)
      if empties.isEmpty then Except.error "ERROR: No empty cells"
      else
        let newPos := empties.getD (R.pick d0 % empties.length) (0, 0)
        let bs2 := bs.map (fun b =>
          if b.pos = ((0 : ℤ), (0 : ℤ)) then { b with pos := newPos } else b)
        let ts2 := ts.map (fun t =>
          if t.pos = ((0 : ℤ), (0 : ℤ)) then { t with pos := newPos } else t)
        Except.ok (bs2, ts2, { total_received := 0, pos := (0, 0) })

/-- `GarbageCollectionModel.__init__` (src/garbageCollector.py lines
190-230): build the grid, buildings, trucks, and disposal site.  There is
no parameter validation of any kind; the only failure paths are the grid
library exceptions surfaced by `createDisposalSite`. -/
def initModel (R : RandomStream) (width height n_buildings n_trucks : ℕ) :
    Except String ModelState :=
  let cb := createBuildings R width height n_buildings
  let ct := createTrucks R width height n_trucks cb.2.1 cb.2.2
  match createDisposalSite R width height cb.1 ct.1 ct.2.2 with
  | Except.error e => Except.error e
  | Except.ok bts =>
    Except.ok
      { width := width, height := height,
        buildings := bts.1, trucks := bts.2.1,
        disposal_site := some bts.2.2, draws := 0 }

/-- Projection of a construction result for stating success. -/
def initOk (r : Except String ModelState) : Option ModelState :=
  match r with
  | Except.ok m => some m
  | Except.error _ => none

/-- Sum over all buildings of `total_trash_generated` (the model reporter
"Total Trash Generated", src/garbageCollector.py lines 209-212). -/
def genSum (s : ModelState) : ℚ :=
  (s.buildings.map Building.total_trash_generated).sum

/-- Sum over all buildings of `trash_level`. -/
def fillSum (s : ModelState) : ℚ :=
  (s.buildings.map Building.trash_level).sum

/-- Sum over all trucks of `current_load`. -/
def loadSum (s : ModelState) : ℚ :=
  (s.trucks.map Truck.current_load).sum

/-- The disposal site's `total_received` (0 before the site exists). -/
def receivedTotal (s : ModelState) : ℚ :=
  match s.disposal_site with
  | some d => d.total_received
  | none => 0

/-- The conservation equation of claim C1. -/
def conservation (s : ModelState) : Prop :=
  genSum s = receivedTotal s + loadSum s + fillSum s

/-- Per-building facts holding in every reachable state: positive fixed
parameters (`capacity` from `randint(8, 15)`, `trash_generation_rate` from
`uniform(0.5, 2.0)`), fill bounded by `capacity + trash_generation_rate`
(the generation step does not clamp, so fill can overshoot by less than one
generation increment), and fill strictly below the 80% threshold whenever
no pickup is pending. -/
def BInv (b : Building) : Prop :=
  0 < b.capacity ∧ 0 < b.trash_generation_rate ∧
    0 ≤ b.trash_level ∧ b.trash_level < b.capacity + b.trash_generation_rate ∧
    (b.pickup_requested = false → b.trash_level < b.capacity * 0.8)

/-- Per-truck facts holding in every reachable state: positive capacity,
nonnegative load, load strictly below capacity except while returning, and
a `target` only while collecting. -/
def TInv (t : Truck) : Prop :=
  0 < t.capacity ∧ 0 ≤ t.current_load ∧
    (t.state ≠ TruckState.returning → t.current_load < t.capacity) ∧
    (t.state ≠ TruckState.collecting → t.target = none)

/-- The `target` of truck `i` in a truck list (dangling index: `none`). -/
def targetOf (l : List Truck) (i : ℕ) : Option ℕ :=
  match l[i]? with
  | some t => t.target
  | none => none

/-- Claim exclusivity over a truck list: two distinct trucks never hold the
same non-`None` target. -/
def ExclL (l : List Truck) : Prop :=
  ∀ i < l.length, ∀ j < l.length, i ≠ j →
    targetOf l i = none ∨ targetOf l i ≠ targetOf l j

/-- The reachable-state invariant of the model. -/
def Inv (s : ModelState) : Prop :=
  (∀ b ∈ s.buildings, BInv b) ∧ (∀ t ∈ s.trucks, TInv t) ∧ ExclL s.trucks

/-- Number of trucks whose `target` is building `k`. -/
def countTargeting (s : ModelState) (k : ℕ) : ℕ :=
  (s.trucks.filter (fun t => t.target == some k)).length

instance (b : Building) : Decidable (BInv b) := by
  unfold BInv; infer_instance

instance (t : Truck) : Decidable (TInv t) := by
  unfold TInv; infer_instance

instance (l : List Truck) : Decidable (ExclL l) := by
  unfold ExclL; infer_instance

instance (s : ModelState) : Decidable (Inv s) := by
  unfold Inv; infer_instance

instance (s : ModelState) : Decidable (conservation s) := by
  unfold conservation; infer_instance

/-! ### Generic helper lemmas -/

lemma foldl_preserve {α β : Type} (P : β → Prop) (f : β → α → β) (l : List α) (b : β)
    (hb : P b) (hf : ∀ c a, P c → P (f c a)) : P (l.foldl f b) := by
  induction l generalizing b with
  | nil => exact hb
  | cons a l ih => exact ih (f b a) (hf b a hb)

lemma sum_map_set {α : Type} (f : α → ℚ) :
    ∀ (l : List α) (i : ℕ) (x b : α), l[i]? = some b →
      ((l.set i x).map f).sum = (l.map f).sum - f b + f x := by
  intro l
  induction l with
  | nil => intro i x b h; simp at h
  | cons c tl ih =>
    intro i x b h
    cases i with
    | zero =>
      simp only [List.getElem?_cons_zero, Option.some.injEq] at h
      subst h
      simp [List.set]
      ring
    | succ n =>
      simp only [List.getElem?_cons_succ] at h
      simp only [List.set, List.map_cons, List.sum_cons, ih n x b h]
      ring

lemma forall_mem_set {α : Type} {P : α → Prop} {l : List α} {i : ℕ} {x : α}
    (hl : ∀ a ∈ l, P a) (hx : P x) : ∀ a ∈ l.set i x, P a := by
  intro a ha
  rcases List.mem_or_eq_of_mem_set ha with h | h
  · exact hl a h
  · exact h ▸ hx

/-! ### Movement only changes truck positions -/

/-- Pointwise relation: the second truck list is the first with only
`pos` and `distance_traveled` possibly changed. -/
def MoveOnly (l l2 : List Truck) : Prop :=
  l2.length = l.length ∧
    ∀ k : ℕ, (match l[k]?, l2[k]? with
      | some t, some t2 =>
        t2.capacity = t.capacity ∧ t2.current_load = t.current_load ∧
          t2.speed = t.speed ∧ t2.state = t.state ∧ t2.target = t.target ∧
          t2.total_collected = t.total_collected ∧ t2.trips_made = t.trips_made
      | none, none => True
      | _, _ => False)

lemma moveOnly_refl (l : List Truck) : MoveOnly l l := by
  refine ⟨rfl, fun k => ?_⟩
  cases h : l[k]? with
  | none => simp
  | some t => simp

lemma moveOnly_trans {l1 l2 l3 : List Truck} (h12 : MoveOnly l1 l2) (h23 : MoveOnly l2 l3) :
    MoveOnly l1 l3 := by
  refine ⟨h23.1.trans h12.1, fun k => ?_⟩
  have hk12 := h12.2 k
  have hk23 := h23.2 k
  cases h1 : l1[k]? with
  | none =>
    cases h2 : l2[k]? with
    | none =>
      cases h3 : l3[k]? with
      | none => simp
      | some t3 => rw [h2, h3] at hk23; exact absurd hk23 (by simp)
    | some t2 => rw [h1, h2] at hk12; exact absurd hk12 (by simp)
  | some t1 =>
    cases h2 : l2[k]? with
    | none => rw [h1, h2] at hk12; exact absurd hk12 (by simp)
    | some t2 =>
      cases h3 : l3[k]? with
      | none => rw [h2, h3] at hk23; exact absurd hk23 (by simp)
      | some t3 =>
        rw [h1, h2] at hk12
        rw [h2, h3] at hk23
        simp only at hk12 hk23 ⊢
        obtain ⟨a1, a2, a3, a4, a5, a6, a7⟩ := hk12
        obtain ⟨c1, c2, c3, c4, c5, c6, c7⟩ := hk23
        exact ⟨c1.trans a1, c2.trans a2, c3.trans a3, c4.trans a4, c5.trans a5,
          c6.trans a6, c7.trans a7⟩

lemma moveOnly_set {l : List Truck} {j : ℕ} {t t2 : Truck} (hj : l[j]? = some t)
    (hcap : t2.capacity = t.capacity) (hload : t2.current_load = t.current_load)
    (hspeed : t2.speed = t.speed) (hstate : t2.state = t.state)
    (htarget : t2.target = t.target) (hcoll : t2.total_collected = t.total_collected)
    (htrips : t2.trips_made = t.trips_made) : MoveOnly l (l.set j t2) := by
  refine ⟨List.length_set l j t2, fun k => ?_⟩
  by_cases hkj : j = k
  · subst hkj
    have hlen : j < l.length := (List.getElem?_eq_some_iff.mp hj).1
    rw [hj, List.getElem?_set_self (by simpa using hlen)]
    exact ⟨hcap, hload, hspeed, hstate, htarget, hcoll, htrips⟩
  · rw [List.getElem?_set_ne hkj]
    cases h : l[k]? with
    | none => simp
    | some u => simp

/-- The state after an operation that only moved trucks around the grid. -/
def MoveLike (s s2 : ModelState) : Prop :=
  s2.width = s.width ∧ s2.height = s.height ∧ s2.buildings = s.buildings ∧
    s2.disposal_site = s.disposal_site ∧ MoveOnly s.trucks s2.trucks

lemma moveLike_refl (s : ModelState) : MoveLike s s :=
  ⟨rfl, rfl, rfl, rfl, moveOnly_refl s.trucks⟩

lemma moveLike_trans {s1 s2 s3 : ModelState} (h12 : MoveLike s1 s2) (h23 : MoveLike s2 s3) :
    MoveLike s1 s3 :=
  ⟨h23.1.trans h12.1, h23.2.1.trans h12.2.1, h23.2.2.1.trans h12.2.2.1,
    h23.2.2.2.1.trans h12.2.2.2.1, moveOnly_trans h12.2.2.2.2 h23.2.2.2.2⟩

lemma moveLike_moveTruckCell (s : ModelState) (j : ℕ) (p : ℤ × ℤ) :
    MoveLike s (moveTruckCell s j p) := by
  unfold moveTruckCell
  cases h : s.trucks[j]? with
  | none => exact moveLike_refl s
  | some t =>
    exact ⟨rfl, rfl, rfl, rfl, moveOnly_set h rfl rfl rfl rfl rfl rfl rfl⟩

lemma moveLike_draws (s : ModelState) (n : ℕ) :
    MoveLike s { s with draws := n } :=
  ⟨rfl, rfl, rfl, rfl, moveOnly_refl s.trucks⟩

lemma moveLike_tryMove {s s2 : ModelState} {j : ℕ} {a b : ℤ × ℤ}
    (h : tryMove s j a b = some s2) : MoveLike s s2 := by
  unfold tryMove at h
  split at h
  · exact absurd h (by simp)
  · split at h
    · exact (Option.some.injEq _ _ ▸ h : _) ▸ moveLike_moveTruckCell s j a
    · exact absurd h (by simp)

lemma moveLike_moveRandomly (s : ModelState) (rng : ℕ → ℕ) (j : ℕ) :
    MoveLike s (moveRandomly s rng j) := by
  unfold moveRandomly
  cases h : s.trucks[j]? with
  | none => exact moveLike_refl s
  | some t =>
    simp only
    split
    · exact moveLike_refl s
    · exact moveLike_trans (moveLike_draws s (s.draws + 1))
        (moveLike_moveTruckCell { s with draws := s.draws + 1 } j _)

lemma moveLike_moveTowards (s : ModelState) (rng : ℕ → ℕ) (j : ℕ) (p : ℤ × ℤ) :
    MoveLike s (moveTowards s rng j p) := by
  unfold moveTowards
  cases h : s.trucks[j]? with
  | none => exact moveLike_refl s
  | some t =>
    simp only
    split
    · split
      · next s1 h1 => exact moveLike_tryMove h1
      · split
        · next s1 h1 => exact moveLike_tryMove h1
        · exact moveLike_moveRandomly s rng j
    · split
      · next s1 h1 => exact moveLike_tryMove h1
      · split
        · next s1 h1 => exact moveLike_tryMove h1
        · exact moveLike_moveRandomly s rng j

/-! ### Consequences of MoveLike -/

lemma map_eq_of_moveOnly {l l2 : List Truck} (h : MoveOnly l l2) {f : Truck → ℚ}
    (hf : ∀ t t2 : Truck, t2.capacity = t.capacity → t2.current_load = t.current_load →
      t2.total_collected = t.total_collected → f t2 = f t) :
    l2.map f = l.map f := by
  apply List.ext_getElem?
  intro k
  have hk := h.2 k
  simp only [List.getElem?_map]
  cases h1 : l[k]? with
  | none =>
    cases h2 : l2[k]? with
    | none => simp
    | some t2 => rw [h1, h2] at hk; exact absurd hk (by simp)
  | some t =>
    cases h2 : l2[k]? with
    | none => rw [h1, h2] at hk; exact absurd hk (by simp)
    | some t2 =>
      rw [h1, h2] at hk
      simp only at hk
      simp only [Option.map_some']
      exact congrArg some (hf t t2 hk.1 hk.2.1 hk.2.2.2.2.2.1)

lemma targetOf_eq_of_moveOnly {l l2 : List Truck} (h : MoveOnly l l2) (k : ℕ) :
    targetOf l2 k = targetOf l k := by
  have hk := h.2 k
  unfold targetOf
  cases h1 : l[k]? with
  | none =>
    cases h2 : l2[k]? with
    | none => rfl
    | some t2 => rw [h1, h2] at hk; exact absurd hk (by simp)
  | some t =>
    cases h2 : l2[k]? with
    | none => rw [h1, h2] at hk; exact absurd hk (by simp)
    | some t2 => rw [h1, h2] at hk; simp only at hk; exact hk.2.2.2.2.1

lemma exclL_of_moveOnly {l l2 : List Truck} (h : MoveOnly l l2) (he : ExclL l) :
    ExclL l2 := by
  intro i hi j hj hij
  rw [targetOf_eq_of_moveOnly h i, targetOf_eq_of_moveOnly h j]
  exact he i (h.1 ▸ hi) j (h.1 ▸ hj) hij

lemma tInv_all_of_moveOnly {l l2 : List Truck} (h : MoveOnly l l2)
    (ht : ∀ t ∈ l, TInv t) : ∀ t ∈ l2, TInv t := by
  intro t2 ht2
  obtain ⟨k, hk2⟩ := List.mem_iff_getElem?.mp ht2
  have hmo := h.2 (k : ℕ)
  cases h1 : l[(k : ℕ)]? with
  | none => rw [h1, hk2] at hmo; exact absurd hmo (by simp)
  | some t =>
    rw [h1, hk2] at hmo
    simp only at hmo
    have hTt := ht t (List.getElem?_mem h1)
    unfold TInv at hTt ⊢
    rw [hmo.1, hmo.2.1, hmo.2.2.2.1, hmo.2.2.2.2.1]
    exact hTt

lemma inv_of_moveLike {s s2 : ModelState} (h : MoveLike s s2) (hInv : Inv s) : Inv s2 := by
  obtain ⟨hB, hT, hE⟩ := hInv
  refine ⟨?_, ?_, ?_⟩
  · rw [h.2.2.1]; exact hB
  · exact tInv_all_of_moveOnly h.2.2.2.2 hT
  · exact exclL_of_moveOnly h.2.2.2.2 hE

lemma conservation_of_moveLike {s s2 : ModelState} (h : MoveLike s s2)
    (hc : conservation s) : conservation s2 := by
  unfold conservation genSum fillSum loadSum receivedTotal at hc ⊢
  rw [h.2.2.1, h.2.2.2.1,
    map_eq_of_moveOnly h.2.2.2.2 (fun t t2 _ hl _ => hl)]
  exact hc

/-! ### ExclL under a single truck update -/

lemma targetOf_set_self {l : List Truck} {j : ℕ} (t2 : Truck) (hj : j < l.length) :
    targetOf (l.set j t2) j = t2.target := by
  unfold targetOf
  rw [List.getElem?_set_self (by simpa using hj)]

lemma targetOf_set_ne {l : List Truck} {j k : ℕ} (t2 : Truck) (hjk : j ≠ k) :
    targetOf (l.set j t2) k = targetOf l k := by
  unfold targetOf
  rw [List.getElem?_set_ne hjk]

lemma exclL_set_target_none {l : List Truck} {j : ℕ} {t2 : Truck}
    (ht2 : t2.target = none) (he : ExclL l) : ExclL (l.set j t2) := by
  intro i hi k hk hik
  rw [List.length_set] at hi hk
  by_cases hij : j = i
  · subst hij
    left
    rw [targetOf_set_self t2 hi]
    exact ht2
  · rw [targetOf_set_ne t2 hij]
    by_cases hjk : j = k
    · subst hjk
      by_cases hnone : targetOf l i = none
      · left; exact hnone
      · right
        rw [targetOf_set_self t2 hk, ht2]
        exact hnone
    · rw [targetOf_set_ne t2 hjk]
      exact he i hi k hk hik

lemma exclL_set_target_keep {l : List Truck} {j : ℕ} {t t2 : Truck}
    (hj : l[j]? = some t) (ht2 : t2.target = t.target) (he : ExclL l) :
    ExclL (l.set j t2) := by
  have hmo : MoveOnly l (l.set j t2) → ExclL (l.set j t2) := fun h => exclL_of_moveOnly h he
  intro i hi k hk hik
  rw [List.length_set] at hi hk
  have hofj : targetOf l j = t.target := by unfold targetOf; rw [hj]
  by_cases hij : j = i
  · subst hij
    rw [targetOf_set_self t2 hi, ht2, ← hofj]
    by_cases hjk : j = k
    · exact absurd hjk hik
    · rw [targetOf_set_ne t2 hjk]
      exact he j hi k hk hik
  · rw [targetOf_set_ne t2 hij]
    by_cases hjk : j = k
    · subst hjk
      rw [targetOf_set_self t2 hk, ht2, ← hofj]
      exact he i hi j hk hik
    · rw [targetOf_set_ne t2 hjk]
      exact he i hi k hk hik

lemma targeted_false_not_mem {l : List Truck} {i : ℕ} (h : targeted l i = false)
    {u : Truck} (hu : u ∈ l) : u.target ≠ some i := by
  unfold targeted at h
  rw [List.any_eq_false] at h
  intro hcontra
  exact absurd (by simpa using hcontra) (h u hu)

lemma exclL_set_fresh {l : List Truck} {j i : ℕ} {t2 : Truck}
    (ht2 : t2.target = some i) (hfresh : targeted l i = false) (he : ExclL l) :
    ExclL (l.set j t2) := by
  intro p hp q hq hpq
  rw [List.length_set] at hp hq
  have hofs : ∀ k : ℕ, k < l.length → targetOf l k ≠ some i := by
    intro k hk
    unfold targetOf
    cases hlk : l[k]? with
    | none => simp
    | some u => exact targeted_false_not_mem hfresh (List.getElem?_mem hlk)
  by_cases hjp : j = p
  · subst hjp
    right
    rw [targetOf_set_self t2 hp, ht2]
    by_cases hjq : j = q
    · exact absurd hjq hpq
    · rw [targetOf_set_ne t2 hjq]
      exact fun hcontra => hofs q hq hcontra.symm
  · rw [targetOf_set_ne t2 hjp]
    by_cases hjq : j = q
    · subst hjq
      by_cases hnone : targetOf l p = none
      · left; exact hnone
      · right
        rw [targetOf_set_self t2 hq, ht2]
        exact fun hcontra => hofs p hp hcontra
    · rw [targetOf_set_ne t2 hjq]
      exact he p hp q hq hpq

/-! ### Building step lemmas -/

lemma generate_of_lt {b : Building} (h : b.trash_level < b.capacity) :
    b.generate = { b with
      trash_level := b.trash_level + b.trash_generation_rate,
      total_trash_generated := b.total_trash_generated + b.trash_generation_rate } := by
  unfold Building.generate; rw [if_pos h]

lemma generate_of_ge {b : Building} (h : ¬ b.trash_level < b.capacity) :
    b.generate = b := by
  unfold Building.generate; rw [if_neg h]

lemma latch_of_cross {b : Building}
    (h : b.capacity * 0.8 ≤ b.trash_level ∧ b.pickup_requested = false) :
    b.latch = { b with pickup_requested := true, pickup_wait_time := 0 } := by
  unfold Building.latch; rw [if_pos h]

lemma latch_of_not {b : Building}
    (h : ¬ (b.capacity * 0.8 ≤ b.trash_level ∧ b.pickup_requested = false)) :
    b.latch = b := by
  unfold Building.latch; rw [if_neg h]

lemma tickWait_of_req {b : Building} (h : b.pickup_requested = true) :
    b.tickWait = { b with pickup_wait_time := b.pickup_wait_time + 1 } := by
  unfold Building.tickWait; rw [if_pos h]

lemma tickWait_of_not {b : Building} (h : b.pickup_requested = false) :
    b.tickWait = b := by
  unfold Building.tickWait
  rw [if_neg (by rw [h]; exact Bool.false_ne_true)]

lemma latch_trash (b : Building) : b.latch.trash_level = b.trash_level := by
  unfold Building.latch; split <;> rfl

lemma latch_gen (b : Building) :
    b.latch.total_trash_generated = b.total_trash_generated := by
  unfold Building.latch; split <;> rfl

lemma latch_capacity (b : Building) : b.latch.capacity = b.capacity := by
  unfold Building.latch; split <;> rfl

lemma tickWait_trash (b : Building) : b.tickWait.trash_level = b.trash_level := by
  unfold Building.tickWait; split <;> rfl

lemma tickWait_gen (b : Building) :
    b.tickWait.total_trash_generated = b.total_trash_generated := by
  unfold Building.tickWait; split <;> rfl

lemma tickWait_req (b : Building) :
    b.tickWait.pickup_requested = b.pickup_requested := by
  unfold Building.tickWait; split <;> rfl

lemma BInv_tickWait {b : Building} (h : BInv b) : BInv b.tickWait := by
  unfold Building.tickWait
  split <;> exact h

lemma BInv_step {b : Building} (h : BInv b) : BInv b.step := by
  obtain ⟨hcap, hrate, h0, hub, hreq⟩ := h
  unfold Building.step
  apply BInv_tickWait
  by_cases h1 : b.trash_level < b.capacity
  · rw [generate_of_lt h1]
    by_cases h2 : b.capacity * 0.8 ≤ b.trash_level + b.trash_generation_rate ∧
        b.pickup_requested = false
    · rw [latch_of_cross h2]
      refine ⟨hcap, hrate, ?_, ?_, ?_⟩
      · show (0 : ℚ) ≤ b.trash_level + b.trash_generation_rate
        linarith
      · show b.trash_level + b.trash_generation_rate < b.capacity + b.trash_generation_rate
        linarith
      · show true = false → _
        intro hc; cases hc
    · rw [latch_of_not h2]
      refine ⟨hcap, hrate, ?_, ?_, ?_⟩
      · show (0 : ℚ) ≤ b.trash_level + b.trash_generation_rate
        linarith
      · show b.trash_level + b.trash_generation_rate < b.capacity + b.trash_generation_rate
        linarith
      · show b.pickup_requested = false → b.trash_level + b.trash_generation_rate < b.capacity * 0.8
        intro h3
        push_neg at h2
        by_contra hc
        push_neg at hc
        exact (h2 hc) h3
  · rw [generate_of_ge h1]
    by_cases h2 : b.capacity * 0.8 ≤ b.trash_level ∧ b.pickup_requested = false
    · rw [latch_of_cross h2]
      refine ⟨hcap, hrate, h0, hub, ?_⟩
      show true = false → _
      intro hc; cases hc
    · rw [latch_of_not h2]
      refine ⟨hcap, hrate, h0, hub, ?_⟩
      exact hreq

lemma step_gen_delta (b : Building) :
    b.step.total_trash_generated - b.total_trash_generated =
      b.step.trash_level - b.trash_level := by
  unfold Building.step
  rw [tickWait_gen, tickWait_trash, latch_gen, latch_trash]
  by_cases h1 : b.trash_level < b.capacity
  · rw [generate_of_lt h1]; dsimp only; ring
  · rw [generate_of_ge h1]; ring

lemma step_req_of_req {b : Building} (h : b.pickup_requested = true) :
    b.step.pickup_requested = true := by
  unfold Building.step
  rw [tickWait_req]
  by_cases h1 : b.trash_level < b.capacity
  · rw [generate_of_lt h1, latch_of_not (by dsimp only; rw [h]; simp)]
    dsimp only; exact h
  · rw [generate_of_ge h1, latch_of_not (by rw [h]; simp)]
    exact h

lemma step_latch_cross {b : Building} (h0 : b.pickup_requested = false)
    (h1 : b.step.pickup_requested = true) :
    b.capacity * 0.8 ≤ b.step.trash_level := by
  unfold Building.step at h1 ⊢
  rw [tickWait_req] at h1
  rw [tickWait_trash, latch_trash]
  by_cases hlatch : b.generate.capacity * 0.8 ≤ b.generate.trash_level ∧
      b.generate.pickup_requested = false
  · have hcap : b.generate.capacity = b.capacity := by
      unfold Building.generate; split <;> rfl
    rw [← hcap]
    exact hlatch.1
  · rw [latch_of_not hlatch] at h1
    have hgenreq : b.generate.pickup_requested = false := by
      unfold Building.generate; split <;> exact h0
    rw [hgenreq] at h1
    cases h1

lemma step_wait_one {b : Building} (h0 : b.pickup_requested = false)
    (h1 : b.step.pickup_requested = true) :
    b.step.pickup_wait_time = 1 := by
  unfold Building.step at h1 ⊢
  rw [tickWait_req] at h1
  have hgenreq : b.generate.pickup_requested = false := by
    unfold Building.generate; split <;> exact h0
  by_cases hlatch : b.generate.capacity * 0.8 ≤ b.generate.trash_level ∧
      b.generate.pickup_requested = false
  · rw [latch_of_cross hlatch, tickWait_of_req rfl]
  · rw [latch_of_not hlatch] at h1
    rw [hgenreq] at h1
    cases h1

/-! ### Patrol candidate lemmas -/

lemma foldl_closest_mem (s : ModelState) (pos : ℤ × ℤ) :
    ∀ (l : List ℕ) (a : ℕ),
      l.foldl (fun acc k =>
        if distanceTo pos (buildingPosAt s k) < distanceTo pos (buildingPosAt s acc)
        then k else acc) a ∈ a :: l := by
  intro l
  induction l with
  | nil => intro a; simp
  | cons x xs ih =>
    intro a
    simp only [List.foldl_cons]
    split
    · exact List.mem_cons_of_mem a (ih x)
    · rcases List.mem_cons.mp (ih a) with h | h
      · rw [h]; exact List.mem_cons_self a (x :: xs)
      · exact List.mem_cons_of_mem a (List.mem_cons_of_mem x h)

lemma closestOf_mem {s : ModelState} {pos : ℤ × ℤ} {l : List ℕ} {i : ℕ}
    (h : closestOf s pos l = some i) : i ∈ l := by
  cases l with
  | nil => simp [closestOf] at h
  | cons a rest =>
    unfold closestOf at h
    rw [Option.some.injEq] at h
    subst h
    exact foldl_closest_mem s pos rest a

lemma pickupCandidates_untargeted {s : ModelState} {i : ℕ}
    (h : i ∈ pickupCandidates s) : targeted s.trucks i = false := by
  unfold pickupCandidates at h
  rw [List.mem_filter] at h
  have h2 := h.2
  rw [Bool.and_eq_true] at h2
  simpa using h2.2

/-! ### Invariant preservation through each truck operation -/

lemma inv_patrol {s : ModelState} {rng : ℕ → ℕ} {j : ℕ} {t : Truck}
    (hInv : Inv s) (hj : s.trucks[j]? = some t)
    (hst : t.state = TruckState.patrolling) : Inv (patrol s rng j) := by
  unfold patrol
  rw [hj]
  dsimp only
  cases hc : closestOf s t.pos (pickupCandidates s) with
  | none => exact inv_of_moveLike (moveLike_moveRandomly s rng j) hInv
  | some i =>
    obtain ⟨hB, hT, hE⟩ := hInv
    obtain ⟨a1, a2, a3, a4⟩ := hT t (List.getElem?_mem hj)
    refine ⟨hB, ?_, ?_⟩
    · refine forall_mem_set hT ⟨a1, a2, ?_, ?_⟩
      · intro _
        exact a3 (by rw [hst]; decide)
      · intro hcon
        exact absurd rfl hcon
    · exact exclL_set_fresh rfl (pickupCandidates_untargeted (closestOf_mem hc)) hE

lemma inv_collect {s : ModelState} {rng : ℕ → ℕ} {j : ℕ} {t : Truck}
    (hInv : Inv s) (hj : s.trucks[j]? = some t)
    (hst : t.state = TruckState.collecting) : Inv (collect s rng j) := by
  obtain ⟨hB, hT, hE⟩ := hInv
  obtain ⟨a1, a2, a3, a4⟩ := hT t (List.getElem?_mem hj)
  have hload : t.current_load < t.capacity := a3 (by rw [hst]; decide)
  have hGiveUp : Inv { s with trucks := s.trucks.set j { t with state := TruckState.patrolling, target := none } } := by
    refine ⟨hB, forall_mem_set hT ⟨a1, a2, fun _ => hload, fun _ => rfl⟩, ?_⟩
    exact exclL_set_target_none rfl hE
  unfold collect
  rw [hj]
  dsimp only
  cases htg : t.target with
  | none => exact hGiveUp
  | some i =>
    dsimp only
    cases hbi : s.buildings[i]? with
    | none => exact hGiveUp
    | some b =>
      dsimp only
      obtain ⟨c1, c2, c3, c4, c5⟩ := hB b (List.getElem?_mem hbi)
      by_cases hreqb : b.pickup_requested = false
      · rw [if_pos hreqb]
        exact hGiveUp
      · rw [if_neg hreqb]
        by_cases hpos : t.pos ≠ b.pos
        · rw [if_pos hpos]
          exact inv_of_moveLike (moveLike_moveTowards s rng j b.pos) ⟨hB, hT, hE⟩
        · rw [if_neg hpos]
          unfold Building.collect_trash
          dsimp only
          refine ⟨?_, ?_, ?_⟩
          · refine forall_mem_set hB ?_
            refine ⟨c1, c2, le_refl 0, by dsimp only; linarith, ?_⟩
            intro _
            show (0 : ℚ) < b.capacity * 0.8
            nlinarith
          · apply forall_mem_set hT
            split
            · exact ⟨a1, by dsimp only; linarith, fun hcon => absurd rfl hcon,
                fun _ => rfl⟩
            · next hcap3 =>
              refine ⟨a1, by dsimp only; linarith, ?_, fun _ => rfl⟩
              intro _
              dsimp only at hcap3 ⊢
              linarith [lt_of_not_le hcap3]
          · split
            · exact exclL_set_target_none rfl hE
            · exact exclL_set_target_none rfl hE

lemma inv_returnToDisposal {s : ModelState} {rng : ℕ → ℕ} {j : ℕ} {t : Truck}
    (hInv : Inv s) (hj : s.trucks[j]? = some t)
    (hst : t.state = TruckState.returning) : Inv (returnToDisposal s rng j) := by
  obtain ⟨hB, hT, hE⟩ := hInv
  obtain ⟨a1, a2, a3, a4⟩ := hT t (List.getElem?_mem hj)
  unfold returnToDisposal
  rw [hj]
  dsimp only
  cases s.disposal_site with
  | none => exact ⟨hB, hT, hE⟩
  | some d =>
    dsimp only
    by_cases hpos : t.pos ≠ d.pos
    · rw [if_pos hpos]
      exact inv_of_moveLike (moveLike_moveTowards s rng j d.pos) ⟨hB, hT, hE⟩
    · rw [if_neg hpos]
      refine ⟨hB, ?_, ?_⟩
      · refine forall_mem_set hT ⟨a1, le_refl 0, fun _ => a1, ?_⟩
        intro _
        exact a4 (by rw [hst]; decide)
      · exact exclL_set_target_keep hj rfl hE

lemma inv_truckSubstep (rng : ℕ → ℕ) (j : ℕ) {s : ModelState} (hInv : Inv s) :
    Inv (truckSubstep rng j s) := by
  unfold truckSubstep
  cases hj : s.trucks[j]? with
  | none => exact hInv
  | some t =>
    dsimp only
    cases hst : t.state with
    | patrolling => exact inv_patrol hInv hj hst
    | collecting => exact inv_collect hInv hj hst
    | returning => exact inv_returnToDisposal hInv hj hst

lemma inv_iterate_substep (rng : ℕ → ℕ) (j n : ℕ) {s : ModelState} (hInv : Inv s) :
    Inv ((truckSubstep rng j)^[n] s) := by
  induction n generalizing s with
  | zero => simpa using hInv
  | succ n ih =>
    rw [Function.iterate_succ_apply]
    exact ih (inv_truckSubstep rng j hInv)

lemma inv_truckStep (rng : ℕ → ℕ) (j : ℕ) {s : ModelState} (hInv : Inv s) :
    Inv (truckStep rng j s) := by
  unfold truckStep
  cases hj : s.trucks[j]? with
  | none => exact hInv
  | some t => exact inv_iterate_substep rng j t.speed hInv

lemma inv_stepAgent (rng : ℕ → ℕ) (a : AgentId) {s : ModelState} (hInv : Inv s) :
    Inv (stepAgent rng a s) := by
  cases a with
  | building i =>
    unfold stepAgent
    dsimp only
    cases hbi : s.buildings[i]? with
    | none => exact hInv
    | some b =>
      dsimp only
      obtain ⟨hB, hT, hE⟩ := hInv
      exact ⟨forall_mem_set hB (BInv_step (hB b (List.getElem?_mem hbi))), hT, hE⟩
  | truck j => exact inv_truckStep rng j hInv
  | disposal => exact hInv

lemma inv_stepModel (rng : ℕ → ℕ) (order : List AgentId) {s : ModelState}
    (hInv : Inv s) : Inv (stepModel rng order s) :=
  foldl_preserve _ _ order s hInv (fun _ a hc => inv_stepAgent rng a hc)

lemma inv_run (rng : ℕ → ℕ) (shuffles : List (List AgentId)) {s : ModelState}
    (hInv : Inv s) : Inv (run rng shuffles s) :=
  foldl_preserve _ _ shuffles s hInv (fun _ o hc => inv_stepModel rng o hc)

/-! ### Conservation preservation -/

lemma conservation_set_truck {s : ModelState} {j : ℕ} {t t2 : Truck}
    (hj : s.trucks[j]? = some t) (hload : t2.current_load = t.current_load)
    (hc : conservation s) : conservation { s with trucks := s.trucks.set j t2 } := by
  unfold conservation genSum receivedTotal loadSum fillSum at hc ⊢
  dsimp only
  rw [sum_map_set Truck.current_load s.trucks j t2 t hj, hload]
  linarith

lemma cons_patrol {s : ModelState} {rng : ℕ → ℕ} {j : ℕ} {t : Truck}
    (hj : s.trucks[j]? = some t) (hc : conservation s) :
    conservation (patrol s rng j) := by
  unfold patrol
  rw [hj]
  dsimp only
  cases closestOf s t.pos (pickupCandidates s) with
  | none => exact conservation_of_moveLike (moveLike_moveRandomly s rng j) hc
  | some i => exact conservation_set_truck hj rfl hc

lemma cons_collect {s : ModelState} {rng : ℕ → ℕ} {j : ℕ} {t : Truck}
    (hj : s.trucks[j]? = some t) (hc : conservation s) :
    conservation (collect s rng j) := by
  unfold collect
  rw [hj]
  dsimp only
  cases htg : t.target with
  | none => exact conservation_set_truck hj rfl hc
  | some i =>
    dsimp only
    cases hbi : s.buildings[i]? with
    | none => exact conservation_set_truck hj rfl hc
    | some b =>
      dsimp only
      by_cases hreqb : b.pickup_requested = false
      · rw [if_pos hreqb]
        exact conservation_set_truck hj rfl hc
      · rw [if_neg hreqb]
        by_cases hpos : t.pos ≠ b.pos
        · rw [if_pos hpos]
          exact conservation_of_moveLike (moveLike_moveTowards s rng j b.pos) hc
        · rw [if_neg hpos]
          unfold Building.collect_trash
          dsimp only
          unfold conservation genSum receivedTotal loadSum fillSum at hc ⊢
          dsimp only
          rw [sum_map_set Building.total_trash_generated s.buildings i _ b hbi,
            sum_map_set Building.trash_level s.buildings i _ b hbi,
            sum_map_set Truck.current_load s.trucks j _ t hj,
            apply_ite Truck.current_load]
          dsimp only
          rw [ite_self]
          linarith

lemma cons_returnToDisposal {s : ModelState} {rng : ℕ → ℕ} {j : ℕ} {t : Truck}
    (hj : s.trucks[j]? = some t) (hc : conservation s) :
    conservation (returnToDisposal s rng j) := by
  unfold returnToDisposal
  rw [hj]
  dsimp only
  cases hd : s.disposal_site with
  | none => exact hc
  | some d =>
    dsimp only
    by_cases hpos : t.pos ≠ d.pos
    · rw [if_pos hpos]
      exact conservation_of_moveLike (moveLike_moveTowards s rng j d.pos) hc
    · rw [if_neg hpos]
      unfold conservation genSum receivedTotal loadSum fillSum at hc ⊢
      unfold DisposalSite.receive_trash
      dsimp only
      rw [hd] at hc
      dsimp only at hc
      rw [sum_map_set Truck.current_load s.trucks j _ t hj]
      dsimp only
      linarith

lemma cons_truckSubstep (rng : ℕ → ℕ) (j : ℕ) {s : ModelState} (hc : conservation s) :
    conservation (truckSubstep rng j s) := by
  unfold truckSubstep
  cases hj : s.trucks[j]? with
  | none => exact hc
  | some t =>
    dsimp only
    cases t.state with
    | patrolling => exact cons_patrol hj hc
    | collecting => exact cons_collect hj hc
    | returning => exact cons_returnToDisposal hj hc

lemma cons_iterate_substep (rng : ℕ → ℕ) (j n : ℕ) {s : ModelState}
    (hc : conservation s) : conservation ((truckSubstep rng j)^[n] s) := by
  induction n generalizing s with
  | zero => simpa using hc
  | succ n ih =>
    rw [Function.iterate_succ_apply]
    exact ih (cons_truckSubstep rng j hc)

lemma cons_truckStep (rng : ℕ → ℕ) (j : ℕ) {s : ModelState} (hc : conservation s) :
    conservation (truckStep rng j s) := by
  unfold truckStep
  cases hj : s.trucks[j]? with
  | none => exact hc
  | some t => exact cons_iterate_substep rng j t.speed hc

lemma cons_stepAgent (rng : ℕ → ℕ) (a : AgentId) {s : ModelState}
    (hc : conservation s) : conservation (stepAgent rng a s) := by
  cases a with
  | building i =>
    unfold stepAgent
    dsimp only
    cases hbi : s.buildings[i]? with
    | none => exact hc
    | some b =>
      dsimp only
      unfold conservation genSum receivedTotal loadSum fillSum at hc ⊢
      dsimp only
      rw [sum_map_set Building.total_trash_generated s.buildings i b.step b hbi,
        sum_map_set Building.trash_level s.buildings i b.step b hbi]
      have hdelta := step_gen_delta b
      linarith
  | truck j => exact cons_truckStep rng j hc
  | disposal => exact hc

lemma cons_stepModel (rng : ℕ → ℕ) (order : List AgentId) {s : ModelState}
    (hc : conservation s) : conservation (stepModel rng order s) :=
  foldl_preserve _ _ order s hc (fun _ a hx => cons_stepAgent rng a hx)

lemma cons_run (rng : ℕ → ℕ) (shuffles : List (List AgentId)) {s : ModelState}
    (hc : conservation s) : conservation (run rng shuffles s) :=
  foldl_preserve _ _ shuffles s hc (fun _ o hx => cons_stepModel rng o hx)

/-! ### The constructed model satisfies the invariants -/

lemma uniformRate_pos (q : ℚ) : 0 < uniformRate q := by
  unfold uniformRate
  split_ifs with h1 h2 <;> norm_num
  linarith

lemma randint_cast_pos (lo hi n : ℕ) (hlo : 0 < lo) :
    (0 : ℚ) < (randint lo hi n : ℚ) := by
  have : 0 < randint lo hi n := by unfold randint; omega
  exact_mod_cast this

lemma createBuildings_spec (R : RandomStream) (w h n : ℕ) :
    ∀ b ∈ (createBuildings R w h n).1,
      BInv b ∧ b.trash_level = 0 ∧ b.total_trash_generated = 0 := by
  unfold createBuildings
  apply foldl_preserve
    (fun acc : List Building × List (ℤ × ℤ) × ℕ =>
      ∀ b ∈ acc.1, BInv b ∧ b.trash_level = 0 ∧ b.total_trash_generated = 0)
  · intro b hb
    simp at hb
  · intro acc i hacc
    dsimp only
    cases findEmpty w h acc.2.1 (R.pick acc.2.2) with
    | none => exact hacc
    | some pos =>
      dsimp only
      intro b hb
      rw [List.mem_append] at hb
      rcases hb with hb | hb
      · exact hacc b hb
      · rw [List.mem_singleton] at hb
        subst hb
        have hcap : (0 : ℚ) < (randint 8 15 (R.buildingCap i) : ℚ) :=
          randint_cast_pos 8 15 _ (by omega)
        have hrate : (0 : ℚ) < uniformRate (R.rate i) := uniformRate_pos _
        refine ⟨⟨hcap, hrate, le_refl 0, ?_, ?_⟩, rfl, rfl⟩
        · show (0 : ℚ) < (randint 8 15 (R.buildingCap i) : ℚ) + uniformRate (R.rate i)
          linarith
        · intro _
          show (0 : ℚ) < (randint 8 15 (R.buildingCap i) : ℚ) * 0.8
          nlinarith

lemma createTrucks_spec (R : RandomStream) (w h n : ℕ) (occ0 : List (ℤ × ℤ)) (d0 : ℕ) :
    ∀ t ∈ (createTrucks R w h n occ0 d0).1,
      TInv t ∧ t.current_load = 0 ∧ t.target = none := by
  unfold createTrucks
  apply foldl_preserve
    (fun acc : List Truck × List (ℤ × ℤ) × ℕ =>
      ∀ t ∈ acc.1, TInv t ∧ t.current_load = 0 ∧ t.target = none)
  · intro t ht
    simp at ht
  · intro acc i hacc
    dsimp only
    cases findEmpty w h acc.2.1 (R.pick acc.2.2) with
    | none => exact hacc
    | some pos =>
      dsimp only
      intro t ht
      rw [List.mem_append] at ht
      rcases ht with ht | ht
      · exact hacc t ht
      · rw [List.mem_singleton] at ht
        subst ht
        have hcap : (0 : ℚ) < (randint 40 60 (R.truckCap i) : ℚ) :=
          randint_cast_pos 40 60 _ (by omega)
        exact ⟨⟨hcap, le_refl 0, fun _ => hcap, fun _ => rfl⟩, rfl, rfl⟩

lemma createDisposalSite_buildings {R : RandomStream} {w h : ℕ} {bs : List Building}
    {ts : List Truck} {d0 : ℕ} {out : List Building × List Truck × DisposalSite}
    (hcd : createDisposalSite R w h bs ts d0 = Except.ok out)
    (P : Building → Prop) (hP : ∀ (b : Building) (p : ℤ × ℤ), P b → P { b with pos := p })
    (hbs : ∀ b ∈ bs, P b) : ∀ b ∈ out.1, P b := by
  unfold createDisposalSite at hcd
  dsimp only at hcd
  split at hcd
  · exact absurd hcd (by simp)
  · split at hcd
    · rw [Except.ok.injEq] at hcd
      subst hcd
      exact hbs
    · split at hcd
      · exact absurd hcd (by simp)
      · rw [Except.ok.injEq] at hcd
        subst hcd
        intro b2 hb2
        rw [List.mem_map] at hb2
        obtain ⟨a, ha, rfl⟩ := hb2
        split
        · exact hP a _ (hbs a ha)
        · exact hbs a ha

lemma createDisposalSite_trucks {R : RandomStream} {w h : ℕ} {bs : List Building}
    {ts : List Truck} {d0 : ℕ} {out : List Building × List Truck × DisposalSite}
    (hcd : createDisposalSite R w h bs ts d0 = Except.ok out)
    (P : Truck → Prop) (hP : ∀ (t : Truck) (p : ℤ × ℤ), P t → P { t with pos := p })
    (hts : ∀ t ∈ ts, P t) : ∀ t ∈ out.2.1, P t := by
  unfold createDisposalSite at hcd
  dsimp only at hcd
  split at hcd
  · exact absurd hcd (by simp)
  · split at hcd
    · rw [Except.ok.injEq] at hcd
      subst hcd
      exact hts
    · split at hcd
      · exact absurd hcd (by simp)
      · rw [Except.ok.injEq] at hcd
        subst hcd
        intro t2 ht2
        rw [List.mem_map] at ht2
        obtain ⟨a, ha, rfl⟩ := ht2
        split
        · exact hP a _ (hts a ha)
        · exact hts a ha

lemma createDisposalSite_received {R : RandomStream} {w h : ℕ} {bs : List Building}
    {ts : List Truck} {d0 : ℕ} {out : List Building × List Truck × DisposalSite}
    (hcd : createDisposalSite R w h bs ts d0 = Except.ok out) :
    out.2.2.total_received = 0 := by
  unfold createDisposalSite at hcd
  dsimp only at hcd
  split at hcd
  · exact absurd hcd (by simp)
  · split at hcd
    · rw [Except.ok.injEq] at hcd
      subst hcd
      rfl
    · split at hcd
      · exact absurd hcd (by simp)
      · rw [Except.ok.injEq] at hcd
        subst hcd
        rfl

lemma exclL_of_all_none {l : List Truck} (h : ∀ t ∈ l, t.target = none) : ExclL l := by
  intro i hi j hj hij
  left
  unfold targetOf
  cases hli : l[i]? with
  | none => rfl
  | some t => exact h t (List.getElem?_mem hli)

lemma sum_map_zero {α : Type} (f : α → ℚ) (l : List α) (h : ∀ a ∈ l, f a = 0) :
    (l.map f).sum = 0 := by
  apply List.sum_eq_zero
  intro x hx
  rw [List.mem_map] at hx
  obtain ⟨a, ha, rfl⟩ := hx
  exact h a ha

lemma initModel_ok_inv {R : RandomStream} {w h nb nt : ℕ} {m : ModelState}
    (hm : initModel R w h nb nt = Except.ok m) : Inv m := by
  unfold initModel at hm
  dsimp only at hm
  cases hcd : createDisposalSite R w h (createBuildings R w h nb).1
      (createTrucks R w h nt (createBuildings R w h nb).2.1 (createBuildings R w h nb).2.2).1
      (createTrucks R w h nt (createBuildings R w h nb).2.1 (createBuildings R w h nb).2.2).2.2 with
  | error e => rw [hcd] at hm; exact absurd hm (by simp)
  | ok bts =>
    rw [hcd] at hm
    dsimp only at hm
    rw [Except.ok.injEq] at hm
    subst hm
    refine ⟨?_, ?_, ?_⟩
    · exact createDisposalSite_buildings hcd BInv
        (fun b p hb => hb)
        (fun b hb => (createBuildings_spec R w h nb b hb).1)
    · intro t ht
      exact (createDisposalSite_trucks hcd (fun t => TInv t ∧ t.target = none)
        (fun t p htp => htp)
        (fun t ht => ⟨(createTrucks_spec R w h nt _ _ t ht).1,
          (createTrucks_spec R w h nt _ _ t ht).2.2⟩) t ht).1
    · apply exclL_of_all_none
      intro t ht
      exact (createDisposalSite_trucks hcd (fun t => TInv t ∧ t.target = none)
        (fun t p htp => htp)
        (fun t ht => ⟨(createTrucks_spec R w h nt _ _ t ht).1,
          (createTrucks_spec R w h nt _ _ t ht).2.2⟩) t ht).2

lemma initModel_ok_conservation {R : RandomStream} {w h nb nt : ℕ} {m : ModelState}
    (hm : initModel R w h nb nt = Except.ok m) : conservation m := by
  unfold initModel at hm
  dsimp only at hm
  cases hcd : createDisposalSite R w h (createBuildings R w h nb).1
      (createTrucks R w h nt (createBuildings R w h nb).2.1 (createBuildings R w h nb).2.2).1
      (createTrucks R w h nt (createBuildings R w h nb).2.1 (createBuildings R w h nb).2.2).2.2 with
  | error e => rw [hcd] at hm; exact absurd hm (by simp)
  | ok bts =>
    rw [hcd] at hm
    dsimp only at hm
    rw [Except.ok.injEq] at hm
    subst hm
    unfold conservation genSum receivedTotal loadSum fillSum
    dsimp only
    have hgen : ∀ b ∈ bts.1, b.total_trash_generated = 0 ∧ b.trash_level = 0 := by
      exact createDisposalSite_buildings hcd
        (fun b => b.total_trash_generated = 0 ∧ b.trash_level = 0)
        (fun b p hb => hb)
        (fun b hb => ⟨(createBuildings_spec R w h nb b hb).2.2,
          (createBuildings_spec R w h nb b hb).2.1⟩)
    have hload : ∀ t ∈ bts.2.1, t.current_load = 0 := by
      exact createDisposalSite_trucks hcd (fun t => t.current_load = 0)
        (fun t p htp => htp)
        (fun t ht => (createTrucks_spec R w h nt _ _ t ht).2.1)
    rw [sum_map_zero _ _ (fun b hb => (hgen b hb).1),
      sum_map_zero _ _ (fun b hb => (hgen b hb).2),
      sum_map_zero _ _ hload,
      createDisposalSite_received hcd]
    norm_num

/-! ### How a truck turn can affect a building -/

/-- Either the building is untouched, or it was harvested during the turn:
request cleared, fill and wait counter reset. -/
def HarvestOr (b b2 : Building) : Prop :=
  b2 = b ∨ (b.pickup_requested = true ∧ b2.pickup_requested = false ∧
    b2.trash_level = 0 ∧ b2.pickup_wait_time = 0)

lemma harvestOr_trans {b b1 b2 : Building} (h1 : HarvestOr b b1)
    (h2 : HarvestOr b1 b2) : HarvestOr b b2 := by
  rcases h1 with rfl | ⟨q1, q2, q3, q4⟩
  · exact h2
  · rcases h2 with rfl | ⟨r1, r2, r3, r4⟩
    · exact Or.inr ⟨q1, q2, q3, q4⟩
    · rw [q2] at r1
      cases r1

lemma truckSubstep_buildings (rng : ℕ → ℕ) (j : ℕ) (s : ModelState) :
    (truckSubstep rng j s).buildings = s.buildings ∨
      ∃ i bb, s.buildings[i]? = some bb ∧ bb.pickup_requested = true ∧
        (truckSubstep rng j s).buildings = s.buildings.set i bb.collect_trash.2 := by
  unfold truckSubstep
  cases hj : s.trucks[j]? with
  | none => exact Or.inl rfl
  | some t =>
    dsimp only
    cases t.state with
    | patrolling =>
      unfold patrol
      rw [hj]
      dsimp only
      cases closestOf s t.pos (pickupCandidates s) with
      | none => exact Or.inl (moveLike_moveRandomly s rng j).2.2.1
      | some i => exact Or.inl rfl
    | collecting =>
      unfold collect
      rw [hj]
      dsimp only
      cases t.target with
      | none => exact Or.inl rfl
      | some i =>
        dsimp only
        cases hbi : s.buildings[i]? with
        | none => exact Or.inl rfl
        | some bb =>
          dsimp only
          by_cases hreqb : bb.pickup_requested = false
          · rw [if_pos hreqb]
            exact Or.inl rfl
          · rw [if_neg hreqb]
            by_cases hpos : t.pos ≠ bb.pos
            · rw [if_pos hpos]
              exact Or.inl (moveLike_moveTowards s rng j bb.pos).2.2.1
            · rw [if_neg hpos]
              refine Or.inr ⟨i, bb, hbi, ?_, rfl⟩
              cases hcases : bb.pickup_requested with
              | true => rfl
              | false => exact absurd hcases hreqb
    | returning =>
      unfold returnToDisposal
      rw [hj]
      dsimp only
      cases s.disposal_site with
      | none => exact Or.inl rfl
      | some d =>
        dsimp only
        by_cases hpos : t.pos ≠ d.pos
        · rw [if_pos hpos]
          exact Or.inl (moveLike_moveTowards s rng j d.pos).2.2.1
        · rw [if_neg hpos]
          exact Or.inl rfl

lemma harvestOr_truckSubstep {rng : ℕ → ℕ} {j : ℕ} {s : ModelState} {k : ℕ}
    {b b2 : Building} (hb : s.buildings[k]? = some b)
    (hb2 : (truckSubstep rng j s).buildings[k]? = some b2) : HarvestOr b b2 := by
  rcases truckSubstep_buildings rng j s with heq | ⟨i, bb, hbi, hreq, heq⟩
  · rw [heq, hb, Option.some.injEq] at hb2
    exact Or.inl hb2.symm
  · rw [heq] at hb2
    by_cases hik : i = k
    · subst hik
      have hlen : i < s.buildings.length := (List.getElem?_eq_some_iff.mp hbi).1
      rw [List.getElem?_set_self (by simpa using hlen), Option.some.injEq] at hb2
      rw [hbi, Option.some.injEq] at hb
      subst hb
      refine Or.inr ⟨hreq, ?_, ?_, ?_⟩ <;> rw [← hb2] <;> rfl
    · rw [List.getElem?_set_ne hik, hb, Option.some.injEq] at hb2
      exact Or.inl hb2.symm

lemma truckSubstep_buildings_length (rng : ℕ → ℕ) (j : ℕ) (s : ModelState) :
    (truckSubstep rng j s).buildings.length = s.buildings.length := by
  rcases truckSubstep_buildings rng j s with heq | ⟨i, bb, hbi, hreq, heq⟩
  · rw [heq]
  · rw [heq]
    exact List.length_set s.buildings i bb.collect_trash.2

lemma harvestOr_iterate (rng : ℕ → ℕ) (j n : ℕ) {s : ModelState} {k : ℕ}
    {b b2 : Building} (hb : s.buildings[k]? = some b)
    (hb2 : ((truckSubstep rng j)^[n] s).buildings[k]? = some b2) : HarvestOr b b2 := by
  induction n generalizing s b with
  | zero =>
    rw [Function.iterate_zero_apply, hb, Option.some.injEq] at hb2
    exact Or.inl hb2.symm
  | succ n ih =>
    rw [Function.iterate_succ_apply] at hb2
    have hlen : k < s.buildings.length := (List.getElem?_eq_some_iff.mp hb).1
    have hlen1 : k < (truckSubstep rng j s).buildings.length := by
      rw [truckSubstep_buildings_length]; exact hlen
    cases hb1 : (truckSubstep rng j s).buildings[k]? with
    | none =>
      rw [List.getElem?_eq_none_iff] at hb1
      omega
    | some b1 =>
      exact harvestOr_trans (harvestOr_truckSubstep hb hb1) (ih hb1 hb2)

/-! ### stepAgent on a building -/

lemma stepAgent_building_none {rng : ℕ → ℕ} {i : ℕ} {s : ModelState}
    (h : s.buildings[i]? = none) : stepAgent rng (AgentId.building i) s = s := by
  unfold stepAgent
  dsimp only
  rw [h]

lemma stepAgent_building_some {rng : ℕ → ℕ} {i : ℕ} {s : ModelState} {b : Building}
    (h : s.buildings[i]? = some b) :
    stepAgent rng (AgentId.building i) s =
      { s with buildings := s.buildings.set i b.step } := by
  unfold stepAgent
  dsimp only
  rw [h]

lemma initOk_some {r : Except String ModelState} {m : ModelState}
    (h : initOk r = some m) : r = Except.ok m := by
  unfold initOk at h
  cases r with
  | ok m2 => rw [Option.some.injEq] at h; rw [h]
  | error e => exact absurd h (by simp)

lemma stepAgent_building_comm (rng : ℕ → ℕ) (i j : ℕ) (s : ModelState) :
    stepAgent rng (AgentId.building i) (stepAgent rng (AgentId.building j) s) =
      stepAgent rng (AgentId.building j) (stepAgent rng (AgentId.building i) s) := by
  by_cases hij : i = j
  · rw [hij]
  · cases hbj : s.buildings[j]? with
    | none =>
      cases hbi : s.buildings[i]? with
      | none =>
        rw [stepAgent_building_none hbj, stepAgent_building_none hbi,
          stepAgent_building_none hbj]
      | some bi =>
        rw [stepAgent_building_none hbj, stepAgent_building_some hbi]
        rw [stepAgent_building_none
          (show ({ s with buildings := s.buildings.set i bi.step } :
            ModelState).buildings[j]? = none by
            dsimp only
            rw [List.getElem?_set_ne hij]
            exact hbj)]
    | some bj =>
      cases hbi : s.buildings[i]? with
      | none =>
        rw [stepAgent_building_some hbj, stepAgent_building_none hbi,
          stepAgent_building_some hbj,
          stepAgent_building_none
            (show ({ s with buildings := s.buildings.set j bj.step } :
              ModelState).buildings[i]? = none by
              dsimp only
              rw [List.getElem?_set_ne (Ne.symm hij)]
              exact hbi)]
      | some bi =>
        rw [stepAgent_building_some hbj,
          stepAgent_building_some
            (show ({ s with buildings := s.buildings.set j bj.step } :
              ModelState).buildings[i]? = some bi by
              dsimp only
              rw [List.getElem?_set_ne (Ne.symm hij)]
              exact hbi),
          stepAgent_building_some hbi,
          stepAgent_building_some
            (show ({ s with buildings := s.buildings.set i bi.step } :
              ModelState).buildings[j]? = some bj by
              dsimp only
              rw [List.getElem?_set_ne hij]
              exact hbj)]
        dsimp only
        rw [List.set_comm bj.step bi.step s.buildings (Ne.symm hij)]

/-! ### From pairwise exclusivity to a target count bound -/

lemma filter_target_le_one {k : ℕ} : ∀ {l : List Truck},
    l.Pairwise (fun t u => t.target = some k → u.target ≠ some k) →
    (l.filter (fun t => t.target == some k)).length ≤ 1 := by
  intro l
  induction l with
  | nil => intro _; simp
  | cons t rest ih =>
    intro hp
    rw [List.pairwise_cons] at hp
    rw [List.filter_cons]
    split
    · next hmatch =>
      have ht : t.target = some k := by simpa using hmatch
      have hrest : rest.filter (fun u => u.target == some k) = [] := by
        rw [List.filter_eq_nil_iff]
        intro u hu
        simp only [beq_iff_eq]
        exact hp.1 u hu ht
      rw [List.length_cons, hrest]
      simp
    · exact ih hp.2

lemma exclL_pairwise {l : List Truck} (hE : ExclL l) (k : ℕ) :
    l.Pairwise (fun t u => t.target = some k → u.target ≠ some k) := by
  rw [List.pairwise_iff_getElem]
  intro i j hi hj hij ht hu
  have hofi : targetOf l i = some k := by
    unfold targetOf
    rw [List.getElem?_eq_getElem hi]
    dsimp only
    exact ht
  have hofj : targetOf l j = some k := by
    unfold targetOf
    rw [List.getElem?_eq_getElem hj]
    dsimp only
    exact hu
  rcases hE i hi j hj (by omega) with hnone | hne
  · rw [hofi] at hnone
    cases hnone
  · rw [hofi, hofj] at hne
    exact hne rfl

lemma exclL_count_le_one {s : ModelState} (hE : ExclL s.trucks) (k : ℕ) :
    countTargeting s k ≤ 1 :=
  filter_target_le_one (exclL_pairwise hE k)

/-! ### Claim theorems -/

/-- C8: latch correctness.  In any state satisfying the reachable-state
invariant, across any single scheduled agent step, a building's
`pickup_requested` flag (a) turns from false to true only during that very
building's own step, with the fill strictly below the 80% threshold before
the step and at or above it afterwards, and (b) turns from true to false
only as the immediate effect of a harvest performed by some truck's step,
which also resets the fill level and the wait counter to zero.  No other
operation changes the flag. -/
theorem C8_latch_correctness (rng : ℕ → ℕ) (s : ModelState) (hInv : Inv s)
    (a : AgentId) (k : ℕ) (b b2 : Building)
    (hb : s.buildings[k]? = some b)
    (hb2 : (stepAgent rng a s).buildings[k]? = some b2) :
    (b.pickup_requested = false → b2.pickup_requested = true →
      a = AgentId.building k ∧ b.trash_level < b.capacity * 0.8 ∧
        b.capacity * 0.8 ≤ b2.trash_level) ∧
    (b.pickup_requested = true → b2.pickup_requested = false →
      (∃ j, a = AgentId.truck j) ∧ b2.trash_level = 0 ∧ b2.pickup_wait_time = 0) := by
  cases a with
  | building i =>
    cases hbi : s.buildings[i]? with
    | none =>
      rw [stepAgent_building_none hbi, hb, Option.some.injEq] at hb2
      subst hb2
      constructor
      · intro h0 h1; rw [h0] at h1; cases h1
      · intro h0 h1; rw [h0] at h1; cases h1
    | some bi =>
      rw [stepAgent_building_some hbi] at hb2
      dsimp only at hb2
      by_cases hik : i = k
      · subst hik
        have hlen : i < s.buildings.length := (List.getElem?_eq_some_iff.mp hbi).1
        rw [List.getElem?_set_self (by simpa using hlen), Option.some.injEq] at hb2
        rw [hbi, Option.some.injEq] at hb
        subst hb
        subst hb2
        constructor
        · intro h0 h1
          refine ⟨rfl, ?_, step_latch_cross h0 h1⟩
          exact (hInv.1 _ (List.getElem?_mem hbi)).2.2.2.2 h0
        · intro h0 h1
          rw [step_req_of_req h0] at h1
          cases h1
      · rw [List.getElem?_set_ne hik, hb, Option.some.injEq] at hb2
        subst hb2
        constructor
        · intro h0 h1; rw [h0] at h1; cases h1
        · intro h0 h1; rw [h0] at h1; cases h1
  | truck j =>
    have hho : HarvestOr b b2 := by
      unfold stepAgent truckStep at hb2
      dsimp only at hb2
      cases hj : s.trucks[j]? with
      | none =>
        rw [hj] at hb2
        dsimp only at hb2
        rw [hb, Option.some.injEq] at hb2
        exact Or.inl hb2.symm
      | some t =>
        rw [hj] at hb2
        dsimp only at hb2
        exact harvestOr_iterate rng j t.speed hb hb2
    rcases hho with rfl | ⟨q1, q2, q3, q4⟩
    · constructor
      · intro h0 h1; rw [h0] at h1; cases h1
      · intro h0 h1; rw [h0] at h1; cases h1
    · constructor
      · intro h0 _; rw [h0] at q1; cases q1
      · intro _ _; exact ⟨⟨j, rfl⟩, q3, q4⟩
  | disposal =>
    unfold stepAgent at hb2
    dsimp only at hb2
    rw [hb, Option.some.injEq] at hb2
    subst hb2
    constructor
    · intro h0 h1; rw [h0] at h1; cases h1
    · intro h0 h1; rw [h0] at h1; cases h1

/-! ### Concrete oracles and states for the claim instances -/

/-- The all-zero random-choice oracle. -/
def rng0 : ℕ → ℕ := fun _ => 0

/-- Construction oracle drawing generation rate 3/2 and the smallest
capacities and speeds. -/
def RC2 : RandomStream := ⟨fun _ => 0, fun _ => 3/2, fun _ => 0, fun _ => 0, fun _ => 0⟩

/-- Construction oracle drawing generation rate 2 (the top of the
`uniform(0.5, 2.0)` range), building capacity 8 and truck capacity 41. -/
def R5 : RandomStream := ⟨fun _ => 0, fun _ => 2, fun _ => 0, fun _ => 1, fun _ => 0⟩

/-- Construction oracle with every draw at its least value. -/
def RZ : RandomStream := ⟨fun _ => 0, fun _ => 1, fun _ => 0, fun _ => 0, fun _ => 0⟩

/-- The model built by `initModel RC2 3 3 1 0`: one building of capacity 8
and generation rate 3/2 (displaced to (0, 1) by the disposal site), no
trucks. -/
def mC2 : ModelState :=
  { width := 3, height := 3,
    buildings := [{ trash_level := 0, capacity := 8, trash_generation_rate := 3/2,
                    pickup_requested := false, total_trash_generated := 0,
                    pickup_wait_time := 0, pos := (0, 1) }],
    trucks := [],
    disposal_site := some { total_received := 0, pos := (0, 0) }, draws := 0 }

/-- A full shuffle of `mC2`'s roster. -/
def tickC2 : List AgentId := [AgentId.building 0, AgentId.disposal]

/-- The model built by `initModel R5 5 5 1 1`: one building (capacity 8,
rate 2) at (0, 2), one truck (capacity 41, speed 1) at (0, 1), disposal at
(0, 0). -/
def m5 : ModelState :=
  { width := 5, height := 5,
    buildings := [{ trash_level := 0, capacity := 8, trash_generation_rate := 2,
                    pickup_requested := false, total_trash_generated := 0,
                    pickup_wait_time := 0, pos := (0, 2) }],
    trucks := [{ capacity := 41, current_load := 0, speed := 1,
                 state := TruckState.patrolling, target := none, total_collected := 0,
                 trips_made := 0, distance_traveled := 0, pos := (0, 1) }],
    disposal_site := some { total_received := 0, pos := (0, 0) }, draws := 0 }

/-- A full shuffle of `m5`'s roster. -/
def tick5 : List AgentId := [AgentId.building 0, AgentId.truck 0, AgentId.disposal]

/-- The model built by `initModel RZ 5 5 0 2`: no buildings and two trucks,
despite the non-positive building count. -/
def mC3 : ModelState :=
  { width := 5, height := 5,
    buildings := [],
    trucks := [{ capacity := 40, current_load := 0, speed := 1,
                 state := TruckState.patrolling, target := none, total_collected := 0,
                 trips_made := 0, distance_traveled := 0, pos := (0, 2) },
                { capacity := 40, current_load := 0, speed := 1,
                  state := TruckState.patrolling, target := none, total_collected := 0,
                  trips_made := 0, distance_traveled := 0, pos := (0, 1) }],
    disposal_site := some { total_received := 0, pos := (0, 0) }, draws := 0 }

/-- Fallback values for `List.getD`. -/
def bDummy : Building := ⟨0, 1, 1, false, 0, 0, (0, 0)⟩

/-- Fallback truck for `List.getD`. -/
def tDummy : Truck := ⟨1, 0, 1, TruckState.patrolling, none, 0, 0, 0, (0, 0)⟩

/-- Scenario state for C4: one building with a pending request at (3, 3),
two idle trucks at (1, 1) and (5, 5). -/
def s4 : ModelState :=
  { width := 7, height := 7,
    buildings := [{ trash_level := 9, capacity := 10, trash_generation_rate := 1,
                    pickup_requested := true, total_trash_generated := 9,
                    pickup_wait_time := 3, pos := (3, 3) }],
    trucks := [{ capacity := 50, current_load := 0, speed := 1,
                 state := TruckState.patrolling, target := none, total_collected := 0,
                 trips_made := 0, distance_traveled := 0, pos := (1, 1) },
               { capacity := 40, current_load := 0, speed := 1,
                 state := TruckState.patrolling, target := none, total_collected := 0,
                 trips_made := 0, distance_traveled := 0, pos := (5, 5) }],
    disposal_site := some { total_received := 0, pos := (0, 0) }, draws := 0 }

/-- Scenario state for C6: one building one generation step short of the
80% threshold, one patrolling truck. -/
def s6 : ModelState :=
  { width := 5, height := 5,
    buildings := [{ trash_level := 7, capacity := 10, trash_generation_rate := 1,
                    pickup_requested := false, total_trash_generated := 7,
                    pickup_wait_time := 0, pos := (2, 2) }],
    trucks := [{ capacity := 50, current_load := 0, speed := 1,
                 state := TruckState.patrolling, target := none, total_collected := 0,
                 trips_made := 0, distance_traveled := 0, pos := (4, 4) }],
    disposal_site := some { total_received := 0, pos := (0, 0) }, draws := 0 }

/-- A legal shuffle of `s6`'s roster that steps the truck before the
building. -/
def orderB : List AgentId := [AgentId.truck 0, AgentId.building 0, AgentId.disposal]

/-- Building one generation step short of the 80% threshold (used for the
C8 and C10 witnesses). -/
def b8 : Building := ⟨7, 10, 1, false, 7, 0, (2, 2)⟩

/-- State holding only `b8` (used for the C8 witness). -/
def s8 : ModelState := ⟨5, 5, [b8], [], some ⟨0, (0, 0)⟩, 0⟩

/-- C1: conservation.  After every tick (every `step()` call) of every run
starting from any constructed model, the sum over all buildings of
`total_trash_generated` equals the disposal site's `total_received` plus
the sum over all trucks of `current_load` plus the sum over all buildings
of `trash_level`. -/
theorem C1_conservation (R : RandomStream) (w h nb nt : ℕ) (m : ModelState)
    (hm : initModel R w h nb nt = Except.ok m) (rng : ℕ → ℕ)
    (shuffles : List (List AgentId)) : conservation (run rng shuffles m) :=
  cons_run rng shuffles (initModel_ok_conservation hm)

set_option maxRecDepth 1000000 in
/-- Witness for C1: three ticks of the concrete model `m5`. -/
theorem C1_conservation_witness :
    initModel R5 5 5 1 1 = Except.ok m5 ∧
      conservation (run rng0 (List.replicate 3 tick5) m5) := by
  have hm : initModel R5 5 5 1 1 = Except.ok m5 :=
    initOk_some (by with_unfolding_all decide)
  exact ⟨hm, C1_conservation R5 5 5 1 1 m5 hm rng0 (List.replicate 3 tick5)⟩

set_option maxRecDepth 1000000 in
/-- Counterexample to C2 as stated: in the model built by
`initModel RC2 3 3 1 0` (capacity 8, generation rate 3/2), after six ticks
the building's fill level is 9, strictly above its capacity — the
generation step does not clamp at capacity. -/
theorem C2_counterexample :
    initOk (initModel RC2 3 3 1 0) = some mC2 ∧
      ((run rng0 (List.replicate 6 tickC2) mC2).buildings.getD 0 bDummy).capacity <
        ((run rng0 (List.replicate 6 tickC2) mC2).buildings.getD 0 bDummy).trash_level := by
  with_unfolding_all decide

/-- C2 amended: for every tick and every building of any run from any
constructed model, `0 ≤ fillLevel < capacity + generationRate`; the fill
can exceed `capacity` by strictly less than one generation increment,
because the generation step adds `generationRate` whenever the fill is
below capacity without clamping. -/
theorem C2_amended_fill_bounds (R : RandomStream) (w h nb nt : ℕ) (m : ModelState)
    (hm : initModel R w h nb nt = Except.ok m) (rng : ℕ → ℕ)
    (shuffles : List (List AgentId)) :
    ∀ b ∈ (run rng shuffles m).buildings,
      0 ≤ b.trash_level ∧ b.trash_level < b.capacity + b.trash_generation_rate := by
  intro b hb
  have hBi := (inv_run rng shuffles (initModel_ok_inv hm)).1 b hb
  exact ⟨hBi.2.2.1, hBi.2.2.2.1⟩

set_option maxRecDepth 1000000 in
/-- Witness for the amended C2: six ticks of the concrete model `mC2`. -/
theorem C2_amended_fill_bounds_witness :
    initModel RC2 3 3 1 0 = Except.ok mC2 ∧
      (∀ b ∈ (run rng0 (List.replicate 6 tickC2) mC2).buildings,
        0 ≤ b.trash_level ∧ b.trash_level < b.capacity + b.trash_generation_rate) := by
  have hm : initModel RC2 3 3 1 0 = Except.ok mC2 :=
    initOk_some (by with_unfolding_all decide)
  exact ⟨hm, C2_amended_fill_bounds RC2 3 3 1 0 mC2 hm rng0 (List.replicate 6 tickC2)⟩

set_option maxRecDepth 1000000 in
/-- Counterexample to C3 as stated: constructing a model with a building
count of 0 — not a positive integer — succeeds and raises nothing; the
source contains no validation and no `ConfigurationError` at all. -/
theorem C3_counterexample : initOk (initModel RZ 5 5 0 2) = some mC3 := by
  with_unfolding_all decide

/-- C3 amended: construction performs no parameter validation and no
`ConfigurationError` exists in the source.  With non-positive (zero)
building and truck counts and any positive grid, construction succeeds,
producing a model with no buildings and no trucks.  Agents that do not fit
on the grid are silently skipped by `_create_buildings`/`_create_trucks`
(`find_empty` returning `None`); the only construction-time failures are
the grid library's own exceptions surfaced while placing the disposal
site. -/
theorem C3_amended_no_validation (R : RandomStream) (w h : ℕ)
    (hw : 0 < w) (hh : 0 < h) :
    ∃ m, initModel R w h 0 0 = Except.ok m ∧ m.buildings = [] ∧ m.trucks = [] := by
  refine ⟨⟨w, h, [], [], some ⟨0, (0, 0)⟩, 0⟩, ?_, rfl, rfl⟩
  unfold initModel createBuildings createTrucks createDisposalSite
  dsimp only [List.range_zero, List.foldl_nil]
  rw [if_neg (by omega)]
  simp

/-- Witness for the amended C3 at a 20 by 20 grid. -/
theorem C3_amended_no_validation_witness :
    ∃ m, initModel RZ 20 20 0 0 = Except.ok m ∧ m.buildings = [] ∧ m.trucks = [] :=
  C3_amended_no_validation RZ 20 20 (by decide) (by decide)

set_option maxRecDepth 1000000 in
/-- C4: claim exclusivity.  After every full `step()` pass of any run from
any constructed model, at most one truck's `target` references any given
building; and in the concrete two-truck scenario `s4` with one requesting
building, after one pass exactly one truck has its target set to that
building while the other remains patrolling. -/
theorem C4_claim_exclusivity :
    (∀ (R : RandomStream) (w h nb nt : ℕ) (m : ModelState),
        initModel R w h nb nt = Except.ok m →
        ∀ (rng : ℕ → ℕ) (shuffles : List (List AgentId)) (k : ℕ),
          countTargeting (run rng shuffles m) k ≤ 1) ∧
      countTargeting (stepModel rng0 (roster s4) s4) 0 = 1 ∧
      ((stepModel rng0 (roster s4) s4).trucks.getD 1 tDummy).state =
        TruckState.patrolling := by
  refine ⟨?_, ?_⟩
  · intro R w h nb nt m hm rng shuffles k
    exact exclL_count_le_one (inv_run rng shuffles (initModel_ok_inv hm)).2.2 k
  · constructor <;> with_unfolding_all decide

set_option maxRecDepth 1000000 in
/-- Witness for C4: five ticks of the concrete model `m5`. -/
theorem C4_claim_exclusivity_witness :
    initModel R5 5 5 1 1 = Except.ok m5 ∧
      countTargeting (run rng0 (List.replicate 5 tick5) m5) 0 ≤ 1 := by
  have hm : initModel R5 5 5 1 1 = Except.ok m5 :=
    initOk_some (by with_unfolding_all decide)
  exact ⟨hm, C4_claim_exclusivity.1 R5 5 5 1 1 m5 hm rng0 (List.replicate 5 tick5) 0⟩

set_option maxRecDepth 1000000 in
/-- Counterexample to C5 as stated: running the constructed model `m5`
(building capacity 8, rate 2; truck capacity 41) for 53 ticks leaves the
truck with `current_load = 48 > 41 = capacity`: `_collect` adds the whole
harvest to the load without clamping at capacity. -/
theorem C5_counterexample :
    initOk (initModel R5 5 5 1 1) = some m5 ∧
      ((run rng0 (List.replicate 53 tick5) m5).trucks.getD 0 tDummy).capacity <
        ((run rng0 (List.replicate 53 tick5) m5).trucks.getD 0 tDummy).current_load := by
  with_unfolding_all decide

/-- C5 amended: for every tick and every truck of any run from any
constructed model, `0 ≤ currentLoad`, and `currentLoad ≤ capacity` holds
whenever the truck is not in the Returning state; a single harvest can
push the load above capacity, upon which the truck immediately switches to
Returning and unloads before collecting again. -/
theorem C5_amended_load_bounds (R : RandomStream) (w h nb nt : ℕ) (m : ModelState)
    (hm : initModel R w h nb nt = Except.ok m) (rng : ℕ → ℕ)
    (shuffles : List (List AgentId)) :
    ∀ t ∈ (run rng shuffles m).trucks,
      0 ≤ t.current_load ∧
        (t.state ≠ TruckState.returning → t.current_load ≤ t.capacity) := by
  intro t ht
  have hTi := (inv_run rng shuffles (initModel_ok_inv hm)).2.1 t ht
  exact ⟨hTi.2.1, fun hs => le_of_lt (hTi.2.2.1 hs)⟩

set_option maxRecDepth 1000000 in
/-- Witness for the amended C5: ten ticks of the concrete model `m5`. -/
theorem C5_amended_load_bounds_witness :
    initModel R5 5 5 1 1 = Except.ok m5 ∧
      (∀ t ∈ (run rng0 (List.replicate 10 tick5) m5).trucks,
        0 ≤ t.current_load ∧
          (t.state ≠ TruckState.returning → t.current_load ≤ t.capacity)) := by
  have hm : initModel R5 5 5 1 1 = Except.ok m5 :=
    initOk_some (by with_unfolding_all decide)
  exact ⟨hm, C5_amended_load_bounds R5 5 5 1 1 m5 hm rng0 (List.replicate 10 tick5)⟩

set_option maxRecDepth 1000000 in
/-- Counterexample to C6 as stated: `orderB` is a permutation of `s6`'s
roster — hence a possible `RandomActivation` shuffle — yet stepping in
that order differs from stepping sources first then collectors in
registration order (`stepPhased`): the tick's outcome depends on the
random shuffle, so the step is not the claimed deterministic phase
order. -/
theorem C6_counterexample :
    orderB.Perm (roster s6) ∧ stepModel rng0 orderB s6 ≠ stepPhased rng0 s6 := by
  constructor
  · with_unfolding_all decide
  · with_unfolding_all decide

/-- C6 amended: `step()` advances every scheduled agent exactly once per
tick in a freshly shuffled random order (`RandomActivation`), not in a
fixed sources-then-collectors phase order; the outcome can depend on the
shuffle.  Building (source) steps, however, are mutually independent: any
two building steps commute, so only the placement of truck steps relative
to building steps is observable. -/
theorem C6_amended_building_steps_commute (rng : ℕ → ℕ) (i j : ℕ) (s : ModelState) :
    stepAgent rng (AgentId.building i) (stepAgent rng (AgentId.building j) s) =
      stepAgent rng (AgentId.building j) (stepAgent rng (AgentId.building i) s) :=
  stepAgent_building_comm rng i j s

/-- C7: harvest.  For every building in any state, `collect_trash` returns
exactly the current fill amount, resets the fill level to 0, clears the
request latch, and resets the wait counter, in one atomic call; the
returned amount plus the remaining fill equals the original fill (no
partial harvest). -/
theorem C7_harvest_atomic (b : Building) :
    b.collect_trash.1 = b.trash_level ∧
      b.collect_trash.2.trash_level = 0 ∧
      b.collect_trash.2.pickup_requested = false ∧
      b.collect_trash.2.pickup_wait_time = 0 ∧
      b.collect_trash.1 + b.collect_trash.2.trash_level = b.trash_level :=
  ⟨rfl, rfl, rfl, rfl, by unfold Building.collect_trash; dsimp only; ring⟩

/-- C9: frame effect of harvest.  `collect_trash` leaves the building's
capacity, generation rate, cumulative generated counter, and position
unchanged. -/
theorem C9_harvest_frame (b : Building) :
    b.collect_trash.2.capacity = b.capacity ∧
      b.collect_trash.2.trash_generation_rate = b.trash_generation_rate ∧
      b.collect_trash.2.total_trash_generated = b.total_trash_generated ∧
      b.collect_trash.2.pos = b.pos :=
  ⟨rfl, rfl, rfl, rfl⟩

/-- C10: on the very tick a building's pickup request is raised, the wait
counter is first reset to 0 by the latch and then incremented in the same
step, so it ends that tick equal to 1. -/
theorem C10_wait_counter_on_request_tick (b : Building)
    (h0 : b.pickup_requested = false) (h1 : b.step.pickup_requested = true) :
    b.step.pickup_wait_time = 1 :=
  step_wait_one h0 h1

set_option maxRecDepth 100000 in
/-- Witness for C10: the building `b8` raises its request this step and
ends it with a wait counter of 1. -/
theorem C10_wait_counter_witness :
    b8.pickup_requested = false ∧ (Building.step b8).pickup_requested = true ∧
      (Building.step b8).pickup_wait_time = 1 := by
  have h1 : (Building.step b8).pickup_requested = true := by
    with_unfolding_all decide
  exact ⟨rfl, h1, C10_wait_counter_on_request_tick b8 rfl h1⟩

set_option maxRecDepth 100000 in
/-- Witness for C8: in state `s8`, the building's own step raises the
request while crossing the 80% threshold from below. -/
theorem C8_latch_witness :
    Inv s8 ∧
      (AgentId.building 0 = AgentId.building 0 ∧
        b8.trash_level < b8.capacity * 0.8 ∧
        b8.capacity * 0.8 ≤ (Building.step b8).trash_level) := by
  have hInv : Inv s8 := by with_unfolding_all decide
  have hb : s8.buildings[0]? = some b8 := rfl
  have hb2 : (stepAgent rng0 (AgentId.building 0) s8).buildings[0]? =
      some (Building.step b8) := by with_unfolding_all decide
  have h1 : (Building.step b8).pickup_requested = true := by
    with_unfolding_all decide
  exact ⟨hInv,
    (C8_latch_correctness rng0 s8 hInv (AgentId.building 0) 0 b8 (Building.step b8)
      hb hb2).1 rfl h1⟩

end GC
